import Mathlib

/-!
Verification development for the deeplit-analyzer repository (backend of the
ScholarMind academic-literature assistant).

The Python sources are shallowly embedded: Python `str` values become Lean
`String`s and all length/slice/containment operations are performed on the
underlying code-point list (`String.data`), which matches Python's code-point
semantics for `len`, slicing and `in`.  Python `float` scores are embedded as
`ℚ` (every arithmetic operation appearing in the embedded code — sums,
products by decimal constants, `min`/`max`, comparisons — is exact on the
decimal values involved).  `datetime` values are embedded as opaque `String`
tokens: the embedded code only stores and renders them, never computes with
them, so each call site that reads the wall clock takes the corresponding
value as an explicit argument.  Outbound network calls (the DeepSeek LLM
chat-completion API) and the third-party fuzzy matcher (`rapidfuzz`
`partial_ratio`) are external capabilities; they are passed in as function
arguments, and every theorem below is universally quantified over them.
-/

/-! ## Python string primitives -/

/-- Python `len` on `str`: number of code points. -/
def pyLen (s : String) : Nat := s.data.length

/-- Python whitespace class for `str.strip` / `\s` (space, tab, LF, CR,
vertical tab, form feed). -/
def pyWs (c : Char) : Bool :=
  c = ' ' || c = '\t' || c = '\n' || c = '\r' || c = '\x0b' || c = '\x0c'

/-- Python `s[:n]` on `str` (code-point slice). -/
def pyTake (s : String) (n : Nat) : String := ⟨s.data.take n⟩

/-- Python `str.strip()` (drop leading and trailing whitespace). -/
def pyStrip (s : String) : String :=
  ⟨((s.data.dropWhile pyWs).reverse.dropWhile pyWs).reverse⟩

/-- Python `str.lower()` (the embedded code only lowercases ASCII-relevant
data: file extensions and the literal `Reference`). -/
def pyLower (s : String) : String := ⟨s.data.map Char.toLower⟩

/-- Splitting a character list at every occurrence of `c`
(Python `str.split(c)` semantics, keeping empty segments). -/
def splitCharList (c : Char) : List Char → List (List Char)
  | [] => [[]]
  | x :: xs =>
    match splitCharList c xs with
    | [] => [[]]
    | r :: rs => if x = c then [] :: r :: rs else (x :: r) :: rs

/-- Python `text.split('\n')`. -/
def pySplitNl (s : String) : List String :=
  (splitCharList '\n' s.data).map String.mk

/-- `pre.isPrefixOf l` on raw character lists. -/
def charListPfx : List Char → List Char → Bool
  | [], _ => true
  | _ :: _, [] => false
  | a :: as, b :: bs => a = b && charListPfx as bs

/-- `sub` occurs contiguously inside `hay` (character lists). -/
def charListSub (sub : List Char) : List Char → Bool
  | [] => charListPfx sub []
  | c :: cs => charListPfx sub (c :: cs) || charListSub sub cs

/-- Python `sub in hay` on `str` (substring containment). -/
def pyContains (hay sub : String) : Bool := charListSub sub.data hay.data

/-- Python `any(w in s for w in ws)`. -/
def pyContainsAny (s : String) (ws : List String) : Bool :=
  ws.any (fun w => pyContains s w)

/-! ## Data model (src/backend/app/models) -/

/-- `DocumentStatus` enum (models/document.py). -/
inductive DocumentStatus where
  | uploaded | parsing | parsed | extracting | extracted
  | indexing | completed | failed
deriving DecidableEq, Repr

/-- The `.value` string of a `DocumentStatus` member. -/
def DocumentStatus.value : DocumentStatus → String
  | .uploaded => "uploaded"
  | .parsing => "parsing"
  | .parsed => "parsed"
  | .extracting => "extracting"
  | .extracted => "extracted"
  | .indexing => "indexing"
  | .completed => "completed"
  | .failed => "failed"

/-- `DocumentType` enum (models/document.py). -/
inductive DocumentType where
  | pdf | word | latex | html | text
deriving DecidableEq, Repr

/-- `Section` model (models/document.py). -/
structure Section where
  id : String
  title : String
  content : String
  level : Nat := 1
  page_start : Option Nat := none
  page_end : Option Nat := none
deriving DecidableEq, Repr

/-- `Figure` model (models/document.py). -/
structure Figure where
  id : String
  caption : String
  type : String
  content : Option String := none
  page_number : Nat
deriving DecidableEq, Repr

/-- `Reference` model (models/document.py). -/
structure Reference where
  id : String
  title : String
  authors : List String := []
  journal : Option String := none
  year : Option Int := none
  volume : Option String := none
  issue : Option String := none
  pages : Option String := none
  doi : Option String := none
  url : Option String := none
  raw_text : String
deriving DecidableEq, Repr

/-- `DocumentMetadata` model (models/document.py); `publish_date` and the
numeric impact factor are carried as rendered strings, the embedded code
never computes with them. -/
structure DocumentMetadata where
  title : String
  authors : List String := []
  abstract : Option String := none
  keywords : List String := []
  journal : Option String := none
  doi : Option String := none
  language : String := "zh"
deriving DecidableEq, Repr

/-- `Document` model (models/document.py); timestamps are opaque strings. -/
structure Document where
  id : String
  filename : String
  file_path : String
  file_size : Nat
  document_type : DocumentType
  status : DocumentStatus := .uploaded
  metadata : Option DocumentMetadata := none
  sections : List Section := []
  figures : List Figure := []
  references : List Reference := []
  created_at : String := ""
  updated_at : String := ""
  processing_errors : List String := []
  page_count : Option Nat := none
  word_count : Option Nat := none
deriving DecidableEq, Repr

/-- `ConversationStatus` enum (models/conversation.py). -/
inductive ConversationStatus where
  | active | archived | deleted
deriving DecidableEq, Repr

/-- `AnswerSource` model (models/qa.py): one retrieved snippet backing an
answer. -/
structure AnswerSource where
  source_type : String
  source_id : String
  source_text : String
  confidence : ℚ
  page_number : Option Nat := none
deriving DecidableEq, Repr

/-- `ConversationEntry` model (models/conversation.py); `sources` holds the
dict projections of `AnswerSource` records, embedded as the records
themselves. -/
structure ConversationEntry where
  question : String
  answer : String
  confidence : ℚ
  sources : List AnswerSource := []
  timestamp : String
  processing_time : ℚ := 0
  question_type : Option String := none
  reasoning : Option String := none
deriving DecidableEq, Repr

/-- `Conversation` model (models/conversation.py). -/
structure Conversation where
  id : String
  document_id : String
  document_title : String
  title : String
  entries : List ConversationEntry := []
  status : ConversationStatus := .active
  created_at : String
  updated_at : String
  total_questions : Nat := 0
deriving DecidableEq, Repr

/-- `Conversation._generate_title` (models/conversation.py lines 51-57):
the first 50 characters of the first question, with `"..."` appended when
the question is longer than 50 characters. -/
def generateTitle (first_question : String) : String :=
  let title := pyTake first_question 50
  if 50 < pyLen first_question then title ++ "..." else title

/-- `Conversation.add_entry` (models/conversation.py lines 41-49): append the
entry, bump the counter, stamp `updated_at` with the wall clock (`now`), and
derive the title when this is the first entry. -/
def addEntry (now : String) (c : Conversation) (e : ConversationEntry) :
    Conversation :=
  let c' : Conversation :=
    { c with
      entries := c.entries ++ [e]
      total_questions := c.total_questions + 1
      updated_at := now }
  if c'.total_questions = 1 then
    { c' with title := generateTitle e.question }
  else c'

/-- Folding `add_entry` over a list of (wall-clock, entry) pairs: the state of
a conversation after a sequence of appends. -/
def addEntries (c : Conversation) (l : List (String × ConversationEntry)) :
    Conversation :=
  l.foldl (fun a p => addEntry p.1 a p.2) c

/-- One history item of `Conversation.to_history_format`
(models/conversation.py lines 59-68). -/
structure HistoryItem where
  question : String
  answer : String
  timestamp : String
deriving DecidableEq, Repr

/-- `Conversation.to_history_format`. -/
def toHistoryFormat (c : Conversation) : List HistoryItem :=
  c.entries.map (fun e => ⟨e.question, e.answer, e.timestamp⟩)

/-- `ConversationStorage.create_conversation`
(services/storage/conversation_storage.py lines 120-139).  The fresh UUID and
the wall clock are passed in. -/
def createConversation (newId now : String)
    (document_id document_title first_question : String) : Conversation :=
  { id := newId
    document_id := document_id
    document_title := document_title
    title := pyTake first_question 50 ++
      (if 50 < pyLen first_question then "..." else "")
    entries := []
    status := .active
    created_at := now
    updated_at := now
    total_questions := 0 }

/-! ## Document parser (src/backend/app/services/parser/document_parser.py) -/

/-- Join a list of lines with a newline: Python `'\n'.join(lines)`. -/
def joinNl : List String → String
  | [] => ""
  | [x] => x
  | x :: y :: ys => x ++ "\n" ++ joinNl (y :: ys)

/-- `DocumentParser._extract_sections` header test (lines 274-299): a stripped
non-empty line is a header when it fully matches, case-insensitively, one of
the patterns.  The leading-number pattern is the Python regex
`^(\d+\.?\s*[^\n]+)$`; with backtracking it accepts exactly the lines whose
first character is a decimal digit and that have at least two characters
(split `\d+` after the first digit, take `\.?` and `\s*` empty, and let
`[^\n]+` swallow the rest, which a line obtained from `split('\n')` always
satisfies).  The remaining patterns are exact alternations such as
`^(Abstract|摘要)$`, i.e. case-insensitive equality with a fixed token. -/
def isSectionHeader (line : String) : Bool :=
  (match line.data with
   | c :: _ :: _ => c.isDigit
   | _ => false) ||
  (pyLower line) ∈
    ["abstract", "摘要", "introduction", "引言", "前言",
     "method", "方法", "实验方法", "材料与方法",
     "result", "结果", "实验结果", "discussion", "讨论",
     "conclusion", "结论", "reference", "参考文献"]

/-- Loop state of `_extract_sections`: flushed sections, the current header
(`current_section`, `none` before the first header; afterwards always a
non-empty stripped line, so Python's truthiness test on it is exactly
non-`none`), and the accumulated content lines. -/
structure SecState where
  sections : List Section
  cur : Option String
  content : List String
deriving DecidableEq, Repr

/-- Flushing the accumulated section (`if current_section and
current_content:` in the loop body and after it): a `Section` with a
sequential id is appended only when a header is active and at least one
content line accumulated. -/
def secFlush (st : SecState) : List Section :=
  match st.cur with
  | none => st.sections
  | some t =>
    match st.content with
    | [] => st.sections
    | c :: cs =>
      st.sections ++
        [{ id := "section_" ++ toString st.sections.length
           title := t
           content := joinNl (c :: cs) }]

/-- One iteration of the `_extract_sections` line loop (lines 289-315). -/
def secStep (st : SecState) (rawLine : String) : SecState :=
  let line := pyStrip rawLine
  if line = "" then st
  else if isSectionHeader line then
    { sections := secFlush st, cur := some line, content := [] }
  else { st with content := st.content ++ [line] }

/-- `_extract_sections` on an already-split line list. -/
def extractSectionsLines (ls : List String) : List Section :=
  secFlush (ls.foldl secStep { sections := [], cur := none, content := [] })

/-- `DocumentParser._extract_sections` (lines 269-326). -/
def extractSections (text : String) : List Section :=
  extractSectionsLines (pySplitNl text)

/-- The title-scan loop of `DocumentParser._extract_metadata` (lines 339-344):
among the first 10 raw lines, the first whose stripped form has more than 10
and fewer than 200 characters. -/
def titleScan : List String → String
  | [] => ""
  | l :: ls =>
    let line := pyStrip l
    if 10 < pyLen line ∧ pyLen line < 200 then line else titleScan ls

/-- The title determination of `DocumentParser._extract_metadata` (lines
330-344).  `pdfTitle` stands for `pdf_metadata.get('title', '') or ''` when
the call passes a non-empty native-metadata dict, and for `''` when the dict
is empty/absent (the non-PDF callers pass `{}`).  The later parts of
`_extract_metadata` (abstract, keywords, DOI, lines 346-361) assign other
fields and never touch `title`. -/
def extractMetadataTitle (pdfTitle : String) (text : String) : String :=
  if pdfTitle ≠ "" then pdfTitle
  else titleScan ((pySplitNl text).take 10)

/-- Modelled from the spec for comparison with the code (claim C7): the spec
says the extracted title is "the first line of length 10-200 characters among
the first 10 lines", read inclusively (10 ≤ length ≤ 200). -/
def titleScanSpec : List String → String
  | [] => ""
  | l :: ls =>
    let line := pyStrip l
    if 10 ≤ pyLen line ∧ pyLen line ≤ 200 then line else titleScanSpec ls

/-- Modelled from the spec for comparison with the code (claim C7). -/
def extractMetadataTitleSpec (pdfTitle : String) (text : String) : String :=
  if pdfTitle ≠ "" then pdfTitle
  else titleScanSpec ((pySplitNl text).take 10)

/-- Case-insensitive prefix test: the pattern (given lowercase) against a raw
character list. -/
def charListPfxCI : List Char → List Char → Bool
  | [], _ => true
  | _ :: _, [] => false
  | a :: as, b :: bs => a = b.toLower && charListPfxCI as bs

/-- `[:\s]*` after the reference marker: greedily drop colons and
whitespace. -/
def dropColonWs (l : List Char) : List Char :=
  l.dropWhile (fun c => c = ':' || pyWs c)

/-- The regex search of `DocumentParser._extract_references` (line 370):
`re.search(r'(?:Reference|参考文献)[:\s]*(.*)', text, re.DOTALL |
re.IGNORECASE)` finds the leftmost occurrence of `Reference`
(case-insensitively) or `参考文献`, greedily skips colons and whitespace, and
captures everything that follows (DOTALL makes `.*` span newlines).  Returns
`none` when neither marker occurs. -/
def refMarkerTail : List Char → Option (List Char)
  | [] => none
  | c :: cs =>
    if charListPfxCI "reference".data (c :: cs) then
      some (dropColonWs ((c :: cs).drop 9))
    else if charListPfx "参考文献".data (c :: cs) then
      some (dropColonWs ((c :: cs).drop 4))
    else refMarkerTail cs

/-- The non-empty stripped lines of the text following the reference marker
(`_extract_references` lines 374-375); `[]` when the marker is absent. -/
def refLinesOf (text : String) : List String :=
  match refMarkerTail text.data with
  | none => []
  | some rest =>
    ((splitCharList '\n' rest).map (fun l => pyStrip ⟨l⟩)).filter (· ≠ "")

/-- `DocumentParser._extract_references` (lines 365-387): one `Reference` per
line longer than 20 characters, with `id` indexed over all non-empty lines,
`title` the first 200 characters and `raw_text` the full line. -/
def extractReferences (text : String) : List Reference :=
  (refLinesOf text).enum.filterMap fun p =>
    if 20 < pyLen p.2 then
      some { id := "ref_" ++ toString p.1
             title := pyTake p.2 200
             authors := []
             raw_text := p.2 }
    else none

/-! ## Document parsing and the background task
(document_parser.py `parse_document`, documents.py `process_document`) -/

/-- What a successful format-specific parse populates on the document.
`ocr_errors` holds the per-page OCR failure messages that the scanned-PDF
path appends to `processing_errors` without aborting (lines 122-127); it is
`[]` for every other path. -/
structure ParsedFields where
  metadata : Option DocumentMetadata
  sections : List Section
  figures : List Figure
  references : List Reference
  page_count : Option Nat
  word_count : Option Nat
  ocr_errors : List String
deriving Repr

/-- The value-level outcome of the format-specific parse body: either it
completes and populates the fields, or it raises and the per-format
`except` clause (e.g. lines 61-63, 169-171, 255-257) catches the exception,
appends one formatted message (`"PDF解析失败: ..."`, `"文本解析失败: ..."`,
etc., carried here as the full message) and returns the document otherwise
unchanged. -/
inductive ParseOutcome where
  | ok (fields : ParsedFields)
  | err (msg : String)

/-- `DocumentParser.parse_document` (lines 30-48).  Every dispatch target
`_parse_pdf` / `_parse_word` / `_parse_latex` / `_parse_html` / `_parse_text`
catches its own exceptions and returns the document, so the outer `except`
clause of `parse_document` (lines 45-48), the only place that would set
status FAILED and append `"解析失败: ..."`, can never run; the function is
therefore total here and never changes `status`. -/
def parseDocument (o : ParseOutcome) (d : Document) : Document :=
  match o with
  | .ok f =>
    { d with
      metadata := f.metadata
      sections := f.sections
      figures := f.figures
      references := f.references
      page_count := f.page_count
      word_count := f.word_count
      processing_errors := d.processing_errors ++ f.ocr_errors }
  | .err msg =>
    { d with processing_errors := d.processing_errors ++ [msg] }

/-- `process_document` (documents.py lines 209-238), returning the finally
persisted record: load the document, persist it with status PARSING, parse,
then persist the parse result with status PARSED (line 227) unconditionally.
The `except` branch (lines 232-238), the only place that persists status
FAILED, runs only if `parse_document` or the storage calls raise; the
storage layer swallows its own exceptions and `parse_document` never raises
(see `parseDocument`), so that branch is dead. -/
def processDocument (o : ParseOutcome) (d : Document) : Document :=
  let d1 : Document := { d with status := .parsing }
  let parsed := parseDocument o d1
  { parsed with status := .parsed }

/-! ## Document upload (documents.py `upload_documents`) -/

/-- Position (from the right) helpers for `os.path.splitext`. -/
def lastIdxOf (c : Char) (l : List Char) : Option Nat :=
  ((l.enum.filter (fun p => p.2 = c)).map (fun p => p.1)).getLast?

/-- POSIX `os.path.splitext(p)[1]`: the suffix from the last dot, provided
the dot lies inside the basename and the basename does not consist solely of
dots up to it (Python's `filenameIndex` while-loop). -/
def splitextExt (p : String) : String :=
  let cs := p.data
  match lastIdxOf '.' cs with
  | none => ""
  | some di =>
    let start : Nat :=
      match lastIdxOf '/' cs with
      | none => 0
      | some si => si + 1
    if start ≤ di ∧ ((cs.drop start).take (di - start)).any (· ≠ '.') then
      ⟨cs.drop di⟩
    else ""

/-- `_is_supported_file_type` (documents.py lines 241-245). -/
def isSupportedFileType (filename : String) : Bool :=
  splitextExt (pyLower filename) ∈
    [".pdf", ".doc", ".docx", ".tex", ".html", ".txt"]

/-- `_get_document_type` (documents.py lines 248-259). -/
def getDocumentType (filename : String) : DocumentType :=
  let ext := splitextExt (pyLower filename)
  if ext = ".pdf" then .pdf
  else if ext = ".doc" then .word
  else if ext = ".docx" then .word
  else if ext = ".tex" then .latex
  else if ext = ".html" then .html
  else .text

/-- One uploaded file as the handler sees it (`UploadFile`): its client
filename and its optional size (`file.size or 0`). -/
structure UploadFile where
  filename : String
  size : Option Nat
deriving DecidableEq, Repr

/-- An HTTP error raised by a handler (`HTTPException`). -/
structure HttpError where
  status : Nat
  detail : String
deriving DecidableEq, Repr

/-- One element of the `documents` array in the upload response. -/
structure UploadedInfo where
  id : String
  filename : String
  status : String
deriving DecidableEq, Repr

/-- The per-file loop of `upload_documents` (documents.py lines 41-75),
tracking the `Document` records persisted so far (first component): an
unsupported file type aborts with a 400 `HTTPException` at the top of its
iteration, before an id is generated or anything is written; otherwise the
file is stored, a `Document` (status UPLOADED) is persisted and the
background task scheduled.  `idOf i` is the UUID generated for the i-th
file, `now` the record timestamps. -/
def uploadLoop (idOf : Nat → String) (now : String) :
    Nat → List Document → List UploadedInfo → List UploadFile →
    List Document × Except HttpError (List UploadedInfo)
  | _, persisted, infos, [] => (persisted, .ok infos)
  | i, persisted, infos, f :: fs =>
    if isSupportedFileType f.filename then
      let docId := idOf i
      let doc : Document :=
        { id := docId
          filename := f.filename
          file_path := "./data/uploads/" ++ docId ++ splitextExt f.filename
          file_size := f.size.getD 0
          document_type := getDocumentType f.filename
          status := .uploaded
          created_at := now
          updated_at := now }
      uploadLoop idOf now (i + 1) (persisted ++ [doc])
        (infos ++ [⟨docId, f.filename, "uploaded"⟩]) fs
    else
      (persisted, .error ⟨400, "不支持的文件类型: " ++ f.filename⟩)

/-- `upload_documents` (documents.py lines 23-81): the batch-size guard
(lines 33-37) rejects with a 400 before the loop touches any file. -/
def uploadDocuments (maxBatch : Nat) (idOf : Nat → String) (now : String)
    (files : List UploadFile) :
    List Document × Except HttpError (List UploadedInfo) :=
  if maxBatch < files.length then
    ([], .error ⟨400, "批量上传文件数量不能超过 " ++ toString maxBatch ++ " 个"⟩)
  else uploadLoop idOf now 0 [] [] files

/-! ## QA service (src/backend/app/services/qa/qa_service.py) -/

/-- `QuestionType` enum (models/qa.py). -/
inductive QuestionType where
  | factual | logical | analytical
deriving DecidableEq, Repr

/-- The `.value` string of a `QuestionType` member. -/
def QuestionType.value : QuestionType → String
  | .factual => "factual"
  | .logical => "logical"
  | .analytical => "analytical"

/-- Join a list of strings with a separator (Python `sep.join(parts)`). -/
def joinWith (sep : String) : List String → String
  | [] => ""
  | [x] => x
  | x :: y :: ys => x ++ sep ++ joinWith sep (y :: ys)

/-- Splitting a character list at every character satisfying `p`
(Python `re.split` on a character class, keeping empty segments). -/
def splitCharsPred (p : Char → Bool) : List Char → List (List Char)
  | [] => [[]]
  | x :: xs =>
    match splitCharsPred p xs with
    | [] => [[]]
    | r :: rs => if p x then [] :: r :: rs else (x :: r) :: rs

/-- A character of the `[一-龥A-Za-z]` class used by
`QAService._extract_keywords` (line 405). -/
def isCjkOrLatin (c : Char) : Bool :=
  (0x4e00 ≤ c.val && c.val ≤ 0x9fa5) ||
  ('A' ≤ c && c ≤ 'Z') || ('a' ≤ c && c ≤ 'z')

/-- `re.findall(r'<class>+', text)`: the maximal runs of characters of the
class, left to right. -/
def tokenizeRuns (p : Char → Bool) (l : List Char) : List String :=
  let step := fun c (acc : List String × List Char) =>
    if p c then (acc.1, c :: acc.2)
    else
      match acc.2 with
      | [] => (acc.1, [])
      | r => (String.mk r :: acc.1, [])
  let r := l.foldr step ([], [])
  match r.2 with
  | [] => r.1
  | run => String.mk run :: r.1

/-- Stop words of `QAService._extract_keywords` (line 408). -/
def qaStopWords : List String :=
  ["的", "了", "是", "在", "有", "和", "与", "或", "但", "然而", "因此", "所以"]

/-- `QAService._extract_keywords` (lines 400-411): CJK/Latin runs, minus stop
words and single characters, first 10 kept. -/
def extractKeywordsQA (text : String) : List String :=
  let words := tokenizeRuns isCjkOrLatin text.data
  (words.filter (fun w => ¬ w ∈ qaStopWords ∧ 1 < pyLen w)).take 10

/-- Markdown/style characters removed by the `clean_text` helpers
(`re.sub(r'[#*_` and backtick `">]', '', t)`). -/
def mdStyleChar (c : Char) : Bool :=
  c = '#' || c = '*' || c = '_' || c = Char.ofNat 96 || c = '"' || c = '>'

/-- Collapse every run of consecutive spaces to a single space. -/
def squeezeSpaces : List Char → List Char
  | [] => []
  | [c] => [c]
  | a :: b :: rest =>
    if a = ' ' ∧ b = ' ' then squeezeSpaces (b :: rest)
    else a :: squeezeSpaces (b :: rest)

/-- `re.sub(r'\s+', ' ', t)`: every maximal whitespace run becomes one
space. -/
def collapseWs (l : List Char) : List Char :=
  squeezeSpaces (l.map (fun c => if pyWs c then ' ' else c))

/-- The nested `clean_text` of `QAService._retrieve_relevant_sections`
(lines 104-108): collapse whitespace, drop markdown/style characters,
strip. -/
def cleanTextQA (t : String) : String :=
  pyStrip ⟨(collapseWs t.data).filter (fun c => ¬ mdStyleChar c)⟩

/-- `re.split(r'\n\s*\n', text)`: a separator starts at a newline whose
following maximal whitespace run contains another newline; the greedy `\s*`
with its final backtrack extends the separator to the last newline of that
run.  Structured as fuel recursion (the fuel, initialised to the list
length, strictly dominates every recursive call, so the `0` fallback is
unreachable) to keep the function kernel-reducible. -/
def splitBlankFuel : Nat → List Char → List (List Char)
  | _, [] => [[]]
  | 0, l => [l]
  | fuel + 1, c :: rest =>
    if c = '\n' then
      let run := rest.takeWhile pyWs
      match lastIdxOf '\n' run with
      | some j =>
        match splitBlankFuel fuel (rest.drop (j + 1)) with
        | [] => [[]]
        | r :: rs => [] :: r :: rs
      | none =>
        match splitBlankFuel fuel rest with
        | [] => [[]]
        | r :: rs => (c :: r) :: rs
    else
      match splitBlankFuel fuel rest with
      | [] => [[]]
      | r :: rs => (c :: r) :: rs

/-- `re.split(r'\n\s*\n', text)` (see `splitBlankFuel`). -/
def splitBlank (l : List Char) : List (List Char) :=
  splitBlankFuel l.length l

/-- Python `hay.count(sub)` for a non-empty `sub`: non-overlapping
occurrences, scanning left to right.  Fuel recursion as in
`splitBlankFuel`. -/
def pyCountFuel (sub : List Char) : Nat → List Char → Nat
  | _, [] => 0
  | 0, _ => 0
  | fuel + 1, c :: cs =>
    if sub ≠ [] ∧ charListPfx sub (c :: cs) then
      1 + pyCountFuel sub fuel ((c :: cs).drop sub.length)
    else pyCountFuel sub fuel cs

/-- Python `hay.count(sub)` on `str`. -/
def pyCount (hay sub : String) : Nat :=
  pyCountFuel sub.data hay.data.length hay.data

/-- Sentence terminators of the `[。！？；]` split class (line 149). -/
def isSentSplit (c : Char) : Bool :=
  c = '。' || c = '！' || c = '？' || c = '；'

/-- `chunk_text.endswith(('。', '！', '？'))` (line 207). -/
def endsWithTerminator (s : String) : Bool :=
  match s.data.getLast? with
  | some c => c = '。' || c = '！' || c = '？'
  | none => false

/-- The sentence-level re-split inside `extract_meaningful_chunks`
(lines 148-170): fold the sentences into chunks of at most the target size,
emitting a chunk only when it reaches the minimum size. -/
def sentenceFold (start : List String) (sentences : List String) :
    List String × String :=
  sentences.foldl
    (fun (acc : List String × String) sRaw =>
      let s := pyStrip sRaw
      if s = "" then acc
      else
        let (cks, temp) := acc
        if pyLen temp + pyLen s ≤ 1000 then
          (cks, if temp ≠ "" then temp ++ "。" ++ s else s)
        else if temp ≠ "" ∧ 300 ≤ pyLen temp then
          (cks ++ [pyStrip temp ++ "。"], s)
        else (cks, s))
    (start, "")

/-- One iteration of the paragraph loop of `extract_meaningful_chunks`
(lines 124-170); state = (emitted chunks, current chunk). -/
def paragraphStep (st : List String × String) (pRaw : String) :
    List String × String :=
  let p := pyStrip pRaw
  if p = "" then st
  else
    let (chunks, current) := st
    if pyLen current + pyLen p ≤ 1000 then
      (chunks, if current ≠ "" then current ++ "\n\n" ++ p else p)
    else if 300 ≤ pyLen current then
      (chunks ++ [pyStrip current], p)
    else
      let current' := if current ≠ "" then current ++ "\n\n" ++ p else p
      if 1500 < pyLen current' then
        let sentences := (splitCharsPred isSentSplit current'.data).map String.mk
        let folded := sentenceFold chunks sentences
        let chunks' :=
          if folded.2 ≠ "" ∧ 300 ≤ pyLen folded.2 then
            folded.1 ++ [pyStrip folded.2]
          else folded.1
        (chunks', "")
      else (chunks, current')

/-- `extract_meaningful_chunks` (qa_service.py lines 110-176). -/
def extractMeaningfulChunks (text : String) : List String :=
  if text = "" then []
  else if pyLen text < 100 then [text]
  else
    let paragraphs := (splitBlank text.data).map String.mk
    let st := paragraphs.foldl paragraphStep ([], "")
    if st.2 ≠ "" ∧ 300 ≤ pyLen st.2 then st.1 ++ [pyStrip st.2] else st.1

/-- One scored retrieval candidate of `_retrieve_relevant_sections`
(the dicts built at lines 211-215 / 230-234); `sec` is the originating
`Section`. -/
structure Candidate where
  sec : Section
  score : ℚ
  text : String
deriving DecidableEq, Repr

/-- Insertion step of the stable descending sort: `x` is placed before the
first element whose key is at most `key x`, i.e. after every
strictly-greater key and before every equal key that originally followed
`x`. -/
def insertDesc (key : α → ℚ) (x : α) : List α → List α
  | [] => [x]
  | y :: ys => if key y ≤ key x then x :: y :: ys else y :: insertDesc key x ys

/-- Python `list.sort(key=key, reverse=True)` / `sorted(key=key,
reverse=True)`: a stable descending sort.  CPython's sort is stable and a
stable sort's output is uniquely determined by the key order and the
original positions, so this stable insertion sort agrees with it on every
input. -/
def sortDescBy (key : α → ℚ) : List α → List α
  | [] => []
  | x :: xs => insertDesc key x (sortDescBy key xs)

/-- The de-duplication loop of `_retrieve_relevant_sections`
(lines 240-248): keep candidates whose first 100 characters were not seen,
stopping at 5. -/
def dedupTake5 (seen : List String) (acc : List Candidate) :
    List Candidate → List Candidate
  | [] => acc
  | c :: cs =>
    let snippet := pyTake c.text 100
    if snippet ∈ seen then dedupTake5 seen acc cs
    else
      let acc' := acc ++ [c]
      if 5 ≤ acc'.length then acc' else dedupTake5 (seen ++ [snippet]) acc' cs

/-- `QAService._retrieve_relevant_sections` (lines 98-250), with the
`rapidfuzz` `fuzz.partial_ratio` capability passed in as `fr` (a 0-100
score). -/
def retrieveRelevantSections (fr : String → String → ℚ) (doc : Document)
    (question : String) : List Candidate :=
  let questionLower := pyLower question
  let questionKeywords := extractKeywordsQA questionLower
  let candidates := (doc.sections.take 30).foldl
    (fun acc s =>
      let text := cleanTextQA s.content
      if text = "" then acc
      else
        acc ++ (extractMeaningfulChunks text).filterMap (fun chunkText =>
          if chunkText = "" ∨ pyLen chunkText < 100 then none
          else
            let chunkLower := pyLower chunkText
            let keywordHits :=
              (questionKeywords.map (fun kw => pyCount chunkLower kw)).sum
            let fuzzyScore := fr chunkLower questionLower
            let lengthScore : ℚ :=
              if 300 ≤ pyLen chunkText ∧ pyLen chunkText ≤ 1200 then 5
              else if 200 ≤ pyLen chunkText ∧ pyLen chunkText ≤ 1500 then 3
              else 0
            let completeness : ℚ := if endsWithTerminator chunkText then 3 else 0
            some ⟨s, (keywordHits : ℚ) * 15 + fuzzyScore + lengthScore +
              completeness, chunkText⟩))
    []
  let candidates :=
    if candidates.length < 3 then
      candidates ++
        ((sortDescBy (fun s => ((pyLen s.content : Int) : ℚ)) doc.sections).take 3).filterMap
          (fun s =>
            let text := cleanTextQA s.content
            if text = "" then none
            else
              let excerpt := pyTake text 1000
              let excerpt :=
                match lastIdxOf '。' excerpt.data with
                | some lp => if 500 < lp then pyTake excerpt (lp + 1) else excerpt
                | none => excerpt
              some ⟨s, 1, excerpt⟩)
    else candidates
  dedupTake5 [] [] (sortDescBy Candidate.score candidates)

/-- One chat message sent to the LLM API. -/
structure ChatMessage where
  role : String
  content : String
deriving DecidableEq, Repr

/-- The system instruction of `QAService._call_deepseek_api`
(lines 276-288). -/
def qaSystemContent : String :=
  "你是一个专业的学术文献分析助手。请基于提供的文献内容回答用户的问题。\n\n要求：\n1. 答案必须基于文献内容，不要编造信息\n2. 如果文献中没有相关信息，请明确说明\n3. 提供准确的答案来源\n4. 使用简洁、专业的学术语言\n5. 对于分析类问题，请提供合理的推理过程\n\n请用中文回答。"

/-- The message list built by `QAService._call_deepseek_api`
(lines 275-299): system instruction, the last 3 history turns replayed as
user/assistant pairs, then the context-plus-question user turn. -/
def buildQaMessages (question context : String) (history : List HistoryItem) :
    List ChatMessage :=
  [⟨"system", qaSystemContent⟩] ++
  ((history.drop (history.length - 3)).flatMap
    (fun h => [⟨"user", h.question⟩, ⟨"assistant", h.answer⟩])) ++
  [⟨"user", "文献内容：\n" ++ context ++ "\n\n问题：" ++ question⟩]

/-- `QAService._call_deepseek_api` (lines 269-327): immediate fallback when
the API key is unconfigured, otherwise the network call; `llm` is the
external chat-completion capability (its value covers both the 200 response
body and the `"API调用失败：..."` error-string path). -/
def callDeepseekApi (llm : List ChatMessage → String) (apiKey : String)
    (question context : String) (history : List HistoryItem) : String :=
  if apiKey = "" then "抱歉，AI服务未配置，无法回答问题。"
  else llm (buildQaMessages question context history)

/-- `QAService._analyze_question_type` (lines 78-96): analytical before
logical before the factual default (the `factual_keywords` list at line 83 is
defined but never branched on). -/
def analyzeQuestionType (question : String) : QuestionType :=
  let ql := pyLower question
  if pyContainsAny ql
      ["分析", "评价", "比较", "影响", "意义", "局限性",
       "analyze", "evaluate", "compare", "impact", "limitation"] then
    .analytical
  else if pyContainsAny ql
      ["为什么", "如何", "怎么", "为什么选择", "为什么使用",
       "why", "how", "why choose"] then
    .logical
  else .factual

/-- `QAService._build_context` (lines 252-267). -/
def buildContext (doc : Document) (relevant : List Candidate) : String :=
  let metaParts :=
    match doc.metadata with
    | some m =>
      ["文档标题：" ++ m.title] ++
        (match m.abstract with
         | some a => if a ≠ "" then ["摘要：" ++ pyTake a 500] else []
         | none => [])
    | none => []
  joinWith "\n\n"
    (metaParts ++ relevant.map (fun ci => "章节：" ++ ci.sec.title ++
      "\n内容：" ++ ci.text))

/-- `QAService._build_answer_sources` (lines 329-343). -/
def buildAnswerSources (relevant : List Candidate) : List AnswerSource :=
  relevant.map fun ci =>
    { source_type := "section"
      source_id := ci.sec.id
      source_text := ci.text
      confidence := min (ci.score / 10) 1 }

/-- The "uncertain" phrase set of `QAService._calculate_confidence`
(line 354). -/
def lowConfidenceWords : List String :=
  ["未找到", "没有", "无法", "不清楚", "不确定"]

/-- `QAService._calculate_confidence` (lines 345-358). -/
def calculateConfidence (answer : String) (relevant : List Candidate) : ℚ :=
  if relevant = [] then 0
  else
    let base : ℚ := min ((relevant.length : ℚ) / 3) 1
    let base := if pyContainsAny answer lowConfidenceWords then base * (1/2)
      else base
    min base 1

/-- `QAService._generate_follow_up_suggestions` (lines 360-383). -/
def generateFollowUpSuggestions (qt : QuestionType) : List String :=
  (match qt with
   | .factual =>
     ["能否详细解释这个结果？", "这个结果有什么意义？", "还有其他相关数据吗？"]
   | .logical =>
     ["这个方法的优缺点是什么？", "为什么选择这种方法？", "还有其他替代方案吗？"]
   | .analytical =>
     ["这个研究的局限性是什么？", "对未来研究有什么建议？", "如何改进这个方法？"]).take 3

/-- `QAService._extract_reasoning` (lines 385-398): the first sentence (split
on `。`) containing a causal connective, trying the connectives in order. -/
def extractReasoning (answer : String) : Option String :=
  let sentences := (splitCharList '。' answer.data).map String.mk
  let rec go : List String → Option String
    | [] => none
    | kw :: ks =>
      if pyContains answer kw then
        match sentences.find? (fun s => pyContains s kw) with
        | some s => some (pyStrip s)
        | none => go ks
      else go ks
  go ["因为", "由于", "因此", "所以", "基于", "根据"]

/-- `QAResponse` (models/qa.py, final variant minus the API-layer
`conversation_id`). -/
structure QAResponse where
  answer : String
  confidence : ℚ
  sources : List AnswerSource
  question_type : QuestionType
  reasoning : Option String := none
  follow_up_suggestions : List String := []
  processing_time : ℚ
deriving DecidableEq, Repr

/-- `QAService.answer_question` (lines 24-76).  `fr` is the fuzzy-matching
capability, `llm` the chat-completion capability, `elapsed` the measured
wall-clock duration.  In this embedding every step is total, so the
`except` branch of lines 69-76 (which would return confidence 0, no sources
and question type FACTUAL) is never taken. -/
def answerQuestion (fr : String → String → ℚ) (llm : List ChatMessage → String)
    (apiKey : String) (elapsed : ℚ) (doc : Document) (question : String)
    (history : List HistoryItem) : QAResponse :=
  let qt := analyzeQuestionType question
  let relevant := retrieveRelevantSections fr doc question
  let context := buildContext doc relevant
  let answerText := callDeepseekApi llm apiKey question context history
  { answer := answerText
    confidence := calculateConfidence answerText relevant
    sources := buildAnswerSources relevant
    question_type := qt
    reasoning := extractReasoning answerText
    follow_up_suggestions := generateFollowUpSuggestions qt
    processing_time := elapsed }

/-! ## AI search service (src/backend/app/services/search/ai_search_service.py) -/

/-- `re.sub(r'\n\s*\n', '\n', text)`: every blank-line separator (in the
`splitBlank` sense) is replaced by a single newline, i.e. the split segments
re-joined with newlines. -/
def substBlankNl (l : List Char) : List Char :=
  (joinWith "\n" ((splitBlank l).map String.mk)).data

/-- `AISearchService._clean_text` (lines 91-99): collapse whitespace, drop
markdown/style characters, collapse blank lines (a no-op after the first
step, embedded nonetheless), strip. -/
def cleanTextSearch (t : String) : String :=
  pyStrip ⟨substBlankNl ((collapseWs t.data).filter (fun c => ¬ mdStyleChar c))⟩

/-- One chunk dict of the AI search pipeline (built at lines 77-83,
125-131, 138-145); `preliminary_score` is attached by the preliminary
filter (line 167), absent before it (`chunk.get('preliminary_score', 0)`). -/
structure Chunk where
  section_id : String
  section_title : String
  text : String
  start_pos : Nat
  end_pos : Nat
  preliminary_score : Option ℚ := none
deriving DecidableEq, Repr

/-- One iteration of the paragraph loop of
`AISearchService._split_long_section` (lines 111-135); state = (emitted
chunks, current chunk, running start offset). -/
def splitLongStep (s : Section) (st : List Chunk × String × Nat)
    (pRaw : String) : List Chunk × String × Nat :=
  let p := pyStrip pRaw
  if p = "" then st
  else
    let (chunks, current, startPos) := st
    if pyLen current + pyLen p + 2 ≤ 1500 then
      (chunks, (if current ≠ "" then current ++ "\n\n" ++ p else p), startPos)
    else if 300 ≤ pyLen current then
      (chunks ++ [⟨s.id, s.title, current, startPos,
        startPos + pyLen current, none⟩], p, startPos + pyLen current)
    else (chunks, p, startPos)

/-- `AISearchService._split_long_section` (lines 101-147). -/
def splitLongSection (text : String) (s : Section) : List Chunk :=
  let st := ((splitBlank text.data).map String.mk).foldl (splitLongStep s)
    ([], "", 0)
  if 300 ≤ pyLen st.2.1 then
    st.1 ++ [⟨s.id, s.title, st.2.1, st.2.2, st.2.2 + pyLen st.2.1, none⟩]
  else st.1

/-- `AISearchService._extract_document_chunks` (lines 64-89). -/
def extractDocumentChunks (doc : Document) : List Chunk :=
  doc.sections.foldl
    (fun chunks s =>
      if s.content = "" ∨ pyLen (pyStrip s.content) < 100 then chunks
      else
        let cleaned := cleanTextSearch s.content
        if pyLen cleaned ≤ 1500 then
          chunks ++ [⟨s.id, s.title, cleaned, 0, pyLen cleaned, none⟩]
        else chunks ++ splitLongSection cleaned s)
    []

/-- A character of Python's regex `\w` class, as used by
`AISearchService._extract_keywords` (line 180): ASCII alphanumerics,
underscore and (approximating the full Unicode word class, which is all the
embedded inputs exercise) CJK ideographs. -/
def isWordChar (c : Char) : Bool :=
  c.isAlphanum || c = '_' || (0x4e00 ≤ c.val && c.val ≤ 0x9fa5)

/-- Stop words of `AISearchService._extract_keywords` (line 177). -/
def searchStopWords : List String :=
  ["的", "了", "在", "是", "我", "有", "和", "就", "不", "人", "都", "一",
   "一个", "上", "也", "很", "到", "说", "要", "去", "你", "会", "着",
   "没有", "看", "好", "自己", "这"]

/-- Duplicate removal keeping first occurrences. -/
def dedupFirstAux (seen : List String) : List String → List String
  | [] => []
  | x :: xs =>
    if x ∈ seen then dedupFirstAux seen xs
    else x :: dedupFirstAux (seen ++ [x]) xs

/-- `AISearchService._extract_keywords` (lines 174-183).  The source builds
`list(set(keywords))[:10]`; a CPython `set` iterates in an unspecified
order, embedded here as first-occurrence order (no claim depends on which
ten keywords survive). -/
def extractKeywordsSearch (text : String) : List String :=
  let words := tokenizeRuns isWordChar text.data
  (dedupFirstAux []
    (words.filter (fun w => 1 < pyLen w ∧ ¬ w ∈ searchStopWords))).take 10

/-- `AISearchService._preliminary_filter` (lines 149-172), threshold 30:
score each chunk, keep those at or above the threshold with the score
attached, sort descending (stably) and cap at 50. -/
def preliminaryFilter (fr : String → String → ℚ) (chunks : List Chunk)
    (query : String) : List Chunk :=
  let queryKeywords := extractKeywordsSearch (pyLower query)
  let filtered := chunks.filterMap (fun ch =>
    let textLower := pyLower ch.text
    let keywordScore := (queryKeywords.map (fun kw => pyCount textLower kw)).sum
    let combined := (keywordScore : ℚ) * 10 + fr textLower (pyLower query)
    if 30 ≤ combined then some { ch with preliminary_score := some combined }
    else none)
  (sortDescBy (fun c => c.preliminary_score.getD 0) filtered).take 50

/-- `AISearchService._ai_relevance_scoring` (lines 185-224) at the value
level: one score per candidate chunk, in order (`asyncio.gather` preserves
order and both failure paths substitute 0.5 positionally).  The batching
into groups of 5 and the 0.1s inter-batch pause affect only scheduling;
`ai query text` is the external scoring capability, covering the parsed
LLM reply, the clipping into [0,1] and the 0.5 fallbacks of
`_score_single_chunk` (lines 233-270). -/
def aiRelevanceScoring (ai : String → String → ℚ) (query : String)
    (chunks : List Chunk) : List ℚ :=
  chunks.map (fun ch => ai query ch.text)

/-- One result dict of `_combine_scores_and_rank` (lines 328-337). -/
structure SearchResult where
  section_id : String
  section_title : String
  text : String
  score : ℚ
  ai_score : ℚ
  preliminary_score : ℚ
  start_pos : Nat
  end_pos : Nat
deriving DecidableEq, Repr

/-- The blended score of line 326: AI weight 70%, preliminary weight 30%
(the preliminary score lives on a 0-100 scale). -/
def finalScore (aiScore prelim : ℚ) : ℚ :=
  aiScore * (7/10) + (prelim / 100) * (3/10)

/-- `AISearchService._combine_scores_and_rank` (lines 316-342): pair chunks
with AI scores positionally (`enumerate` guarded by `i < len(ai_scores)`),
blend, sort by blended score descending (stably) and truncate to `top_k`. -/
def combineScoresAndRank (chunks : List Chunk) (aiScores : List ℚ)
    (topK : Nat) : List SearchResult :=
  let results := (chunks.zip aiScores).map (fun p =>
    let prelim := p.1.preliminary_score.getD 0
    { section_id := p.1.section_id
      section_title := p.1.section_title
      text := p.1.text
      score := finalScore p.2 prelim
      ai_score := p.2
      preliminary_score := prelim
      start_pos := p.1.start_pos
      end_pos := p.1.end_pos })
  (sortDescBy SearchResult.score results).take topK

/-- `AISearchService.enhanced_search` (lines 30-62). -/
def enhancedSearch (fr : String → String → ℚ) (ai : String → String → ℚ)
    (doc : Document) (query : String) (topK : Nat) : List SearchResult :=
  let chunks := extractDocumentChunks doc
  if chunks = [] then []
  else
    let filtered := preliminaryFilter fr chunks query
    combineScoresAndRank filtered (aiRelevanceScoring ai query filtered) topK

/-! ## Conversation export
(src/backend/app/services/storage/conversation_storage.py) -/

/-- The `{content, filename}` dict returned by `_export_to_markdown`. -/
structure MarkdownExport where
  content : String
  filename : String
deriving DecidableEq, Repr

/-- The header part of `_export_to_markdown` (lines 200-204).  `fmtTime`
stands for `datetime.strftime('%Y-%m-%d %H:%M:%S')` on the opaque timestamp
tokens. -/
def mdHeader (fmtTime : String → String) (c : Conversation) : String :=
  "# 对话记录: " ++ c.title ++ "\n\n" ++
  "**文档**: " ++ c.document_title ++ "\n" ++
  "**创建时间**: " ++ fmtTime c.created_at ++ "\n" ++
  "**问题总数**: " ++ toString c.total_questions ++ "\n\n" ++
  "---\n\n"

/-- The loop body of `_export_to_markdown` for entry number `i` (lines
206-215): time, question and answer always; the confidence line only when
`entry.confidence > 0` and the processing-time line only when
`entry.processing_time > 0`.  `fmt2f` stands for Python `'{:.2f}'.format` on
the embedded rationals. -/
def entryBlock (fmtTime : String → String) (fmt2f : ℚ → String) (i : Nat)
    (e : ConversationEntry) : String :=
  "## 问题 " ++ toString i ++ "\n\n" ++
  "**时间**: " ++ fmtTime e.timestamp ++ "\n\n" ++
  "**问题**: " ++ e.question ++ "\n\n" ++
  "**回答**: " ++ e.answer ++ "\n\n" ++
  (if 0 < e.confidence then "**置信度**: " ++ fmt2f e.confidence ++ "\n\n"
   else "") ++
  (if 0 < e.processing_time then
    "**处理时间**: " ++ fmt2f e.processing_time ++ "秒\n\n"
   else "") ++
  "---\n\n"

/-- The `enumerate(conversation.entries, 1)` accumulation loop of
`_export_to_markdown`. -/
def mdBlocks (fmtTime : String → String) (fmt2f : ℚ → String) (i : Nat) :
    List ConversationEntry → String
  | [] => ""
  | e :: es => entryBlock fmtTime fmt2f i e ++ mdBlocks fmtTime fmt2f (i + 1) es

/-- `ConversationStorage._export_to_markdown` (lines 198-217). -/
def exportToMarkdown (fmtTime : String → String) (fmt2f : ℚ → String)
    (c : Conversation) : MarkdownExport :=
  { content := mdHeader fmtTime c ++ mdBlocks fmtTime fmt2f 1 c.entries
    filename := "conversation_" ++ c.id ++ ".md" }

/-- The value returned by `export_conversation`: the full record
(`conversation.dict()`) or the markdown rendering. -/
inductive ExportResult where
  | record (c : Conversation)
  | markdown (m : MarkdownExport)
deriving Repr

/-- The format dispatch of `ConversationStorage.export_conversation`
(lines 187-192) on a resolved conversation: `"json"` returns the full
record, `"markdown"` the rendering, anything else falls back to the full
record. -/
def exportConversation (fmtTime : String → String) (fmt2f : ℚ → String)
    (c : Conversation) (format : String) : ExportResult :=
  if format = "json" then .record c
  else if format = "markdown" then .markdown (exportToMarkdown fmtTime fmt2f c)
  else .record c

/-! ## The `/qa/ask` handler (src/backend/app/api/qa.py) -/

/-- One turn of the legacy in-process `ConversationManager`
(qa.py lines 28-37); the timestamp is `time.time()` embedded as ℚ. -/
structure LegacyTurn where
  question : String
  answer : String
  timestamp : ℚ
deriving DecidableEq, Repr

/-- The state visible to the `/qa/ask` handler: the two file-per-id stores
as partial maps, plus the legacy in-process conversation manager (its
per-document bounded history and last-access map). -/
structure AskState where
  documents : String → Option Document
  conversations : String → Option Conversation
  legacyHistory : String → List LegacyTurn
  legacyAccess : String → Option ℚ

/-- `ConversationManager._cleanup_old_conversations` (qa.py lines 56-69):
purge every document whose last access is older than 24 hours. -/
def legacyCleanup (now : ℚ) (st : AskState) : AskState :=
  { st with
    legacyHistory := fun d =>
      match st.legacyAccess d with
      | some t => if 86400 < now - t then [] else st.legacyHistory d
      | none => st.legacyHistory d
    legacyAccess := fun d =>
      match st.legacyAccess d with
      | some t => if 86400 < now - t then none else some t
      | none => none }

/-- `ConversationManager.add_conversation` (qa.py lines 28-37): append the
turn (the deque keeps the last 10), stamp the access time, purge. -/
def legacyAdd (now : ℚ) (docId q a : String) (st : AskState) : AskState :=
  let hist := st.legacyHistory docId ++ [⟨q, a, now⟩]
  let hist := hist.drop (hist.length - 10)
  legacyCleanup now
    { st with
      legacyHistory := fun d => if d = docId then hist else st.legacyHistory d
      legacyAccess := fun d => if d = docId then some now else st.legacyAccess d }

/-- `ConversationStorage.save_conversation` (lines 21-37) as a state
transition: stamp `updated_at` with the wall clock and write the record
under its id. -/
def saveConversation (now : String) (c : Conversation) (st : AskState) :
    AskState :=
  { st with
    conversations := fun i =>
      if i = c.id then some { c with updated_at := now } else st.conversations i }

/-- `QuestionRequest` (qa.py lines 75-79). -/
structure QuestionRequest where
  document_id : String
  question : String
  conversation_id : Option String := none
deriving DecidableEq, Repr

/-- `QuestionResponse` (qa.py lines 82-91); `sources` carries the dict
projections of the `AnswerSource` records. -/
structure QuestionResponse where
  answer : String
  confidence : ℚ
  sources : List AnswerSource
  question_type : String
  reasoning : Option String
  follow_up_suggestions : List String
  processing_time : ℚ
  conversation_id : String
deriving DecidableEq, Repr

/-- `ask_question` (qa.py lines 94-171).  `newConvId` is the UUID minted if
a conversation must be created, `now` the request's wall-clock token,
`legacyNow` the `time.time()` value.  Python's `if request.conversation_id:`
is truthiness, so an explicit empty string also takes the create branch.
`add_qa_to_conversation` re-fetches the conversation by id, appends via
`add_entry` and re-saves; its boolean result is ignored by the handler, so a
failed fetch leaves the store unchanged but still returns the response. -/
def askQuestion (fr : String → String → ℚ) (llm : List ChatMessage → String)
    (apiKey : String) (elapsed : ℚ) (newConvId now : String) (legacyNow : ℚ)
    (st : AskState) (req : QuestionRequest) :
    Except HttpError (QuestionResponse × AskState) :=
  match st.documents req.document_id with
  | none => .error ⟨404, "文档不存在"⟩
  | some document =>
    if ¬ document.status.value ∈ ["parsed", "extracted", "completed"] then
      .error ⟨400, "文档尚未处理完成，请稍后再试"⟩
    else
      let cidOpt : Option String :=
        match req.conversation_id with
        | some c => if c = "" then none else some c
        | none => none
      let resolved : Except HttpError (Conversation × AskState) :=
        match cidOpt with
        | some cid =>
          match st.conversations cid with
          | none => .error ⟨404, "对话记录不存在"⟩
          | some conversation => .ok (conversation, st)
        | none =>
          let conversation := createConversation newConvId now req.document_id
            (match document.metadata with
             | some m => m.title
             | none => "未知文档")
            req.question
          .ok (conversation, saveConversation now conversation st)
      match resolved with
      | .error e => .error e
      | .ok (conversation, st1) =>
        let history := toHistoryFormat conversation
        let qa := answerQuestion fr llm apiKey elapsed document req.question
          history
        let entry : ConversationEntry :=
          { question := req.question
            answer := qa.answer
            confidence := qa.confidence
            sources := qa.sources
            timestamp := now
            processing_time := qa.processing_time
            question_type := some qa.question_type.value
            reasoning := qa.reasoning }
        let st2 :=
          match st1.conversations conversation.id with
          | some c0 => saveConversation now (addEntry now c0 entry) st1
          | none => st1
        let st3 := legacyAdd legacyNow req.document_id req.question qa.answer st2
        .ok
          ({ answer := qa.answer
             confidence := qa.confidence
             sources := qa.sources
             question_type := qa.question_type.value
             reasoning := qa.reasoning
             follow_up_suggestions := qa.follow_up_suggestions
             processing_time := qa.processing_time
             conversation_id := conversation.id }, st3)

/-! ## Concrete fixtures used by the witness theorems -/

/-- A minimal text document record as created by upload. -/
def docA : Document :=
  { id := "d1", filename := "a.txt", file_path := "./data/uploads/d1.txt"
    file_size := 0, document_type := .text }

/-- A successful-parse field set with no OCR errors. -/
def fieldsA : ParsedFields :=
  { metadata := none, sections := [], figures := [], references := []
    page_count := none, word_count := some 0, ocr_errors := [] }

/-- The status of an error result, `none` on success. -/
def errStatus : Except HttpError α → Option Nat
  | .error e => some e.status
  | .ok _ => none

/-- A 60-character question (longer than the 50-character title cut). -/
def q60 : String := "012345678901234567890123456789012345678901234567890123456789"

/-- Two QA entries for the conversation fixtures. -/
def entryA : ConversationEntry :=
  { question := q60, answer := "答案一", confidence := 1/2, timestamp := "t1" }

def entryB : ConversationEntry :=
  { question := "第二个问题", answer := "答案二", confidence := 0, timestamp := "t2" }

/-- A freshly created conversation (no entries yet). -/
def convA : Conversation := createConversation "c0" "t0" "d1" "文档标题" q60

/-- A 120-character section body with no whitespace or markdown characters
(and not containing the query word). -/
def chars120 : String :=
  "数据分析方法研究数据分析方法研究数据分析方法研究数据分析方法研究数据分析方法研究数据分析方法研究数据分析方法研究数据分析方法研究数据分析方法研究数据分析方法研究数据分析方法研究数据分析方法研究数据分析方法研究数据分析方法研究数据分析方法研究"

/-- A document with one long-enough section, for the search witness. -/
def docSearch : Document :=
  { id := "d2", filename := "b.txt", file_path := "p", file_size := 0
    document_type := .text, status := .parsed
    sections := [{ id := "s1", title := "正文", content := chars120 }] }

/-- A document with no sections at all (retrieval finds nothing). -/
def docEmpty : Document :=
  { id := "d3", filename := "c.txt", file_path := "p", file_size := 0
    document_type := .text, status := .parsed }

/-- 15-character and 30-character reference lines. -/
def line15 : String := "AAAAAAAAAAAAAAA"

def line30 : String := "BBBBBBBBBBBBBBBBBBBBBBBBBBBBBB"

/-- A text with a reference block holding one 15-character and one
30-character line. -/
def refTextA : String :=
  "这是一段不相关的正文内容。\n参考文献\n" ++ line15 ++ "\n" ++ line30

/-- A persisted conversation with one zero-confidence, zero-processing-time
entry. -/
def convC8 : Conversation :=
  { id := "c8", document_id := "d1", document_title := "文档", title := "标题"
    entries := [{ question := "问", answer := "答", confidence := 0
                  sources := [], timestamp := "t1", processing_time := 0 }]
    status := .active, created_at := "t0", updated_at := "t1"
    total_questions := 1 }

/-- Section-extraction fixture: a discarded preamble line, an Abstract
section with content, an Introduction header immediately followed by another
header (so it yields no section), and a trailing Method section. -/
def textC9 : String :=
  "噪声前置行\nAbstract\n这是摘要内容。\nIntroduction\nMethod\n方法正文内容。"

/-- A parsed document and a conversation that belongs to a different
document, plus the store state holding both. -/
def docQA : Document :=
  { id := "d1", filename := "a.txt", file_path := "p", file_size := 0
    document_type := .text, status := .parsed }

def convOther : Conversation :=
  { id := "c1", document_id := "d2", document_title := "另一篇文档"
    title := "旧标题"
    entries := [{ question := "旧问", answer := "旧答", confidence := 1/2
                  timestamp := "t1" }]
    status := .active, created_at := "t0", updated_at := "t1"
    total_questions := 1 }

def stC10 : AskState :=
  { documents := fun i => if i = "d1" then some docQA else none
    conversations := fun i => if i = "c1" then some convOther else none
    legacyHistory := fun _ => []
    legacyAccess := fun _ => none }

def reqC10 : QuestionRequest :=
  { document_id := "d1", question := "新问题", conversation_id := some "c1" }

/-- Observable projection of an `askQuestion` outcome: the resolved
conversation id, the returned answer, and the (question, answer) turns now
stored under `cid` — `none` on an HTTP error. -/
def askOutcomeView (r : Except HttpError (QuestionResponse × AskState))
    (cid : String) : Option (String × String × Option (List (String × String))) :=
  match r with
  | .error _ => none
  | .ok (resp, st') =>
    some (resp.conversation_id, resp.answer,
      (st'.conversations cid).map
        (fun c => c.entries.map (fun e => (e.question, e.answer))))

/-! ## Shared helper lemmas -/

theorem string_eq_of_data_eq {s t : String} (h : s.data = t.data) : s = t := by
  cases s; cases t
  exact congrArg String.mk h

theorem pyTake_of_le {s : String} {n : Nat} (h : pyLen s ≤ n) : pyTake s n = s := by
  unfold pyTake
  rw [List.take_of_length_le h]

theorem str_append_ne_empty_left {a : String} (b : String) (h : a ≠ "") :
    a ++ b ≠ "" := by
  intro hab
  apply h
  apply string_eq_of_data_eq
  have hd := congrArg String.data hab
  rw [String.data_append] at hd
  rcases List.append_eq_nil.mp hd with ⟨h1, _⟩
  simpa using h1

theorem joinNl_ne_empty {x : String} (xs : List String) (hx : x ≠ "") :
    joinNl (x :: xs) ≠ "" := by
  cases xs with
  | nil => simpa [joinNl] using hx
  | cons y ys =>
    show x ++ "\n" ++ joinNl (y :: ys) ≠ ""
    exact str_append_ne_empty_left _ (str_append_ne_empty_left _ hx)

/-! ## C1 — background processing vs. parse failure -/

/-- C1 (code bug): the claim says a failed parse persists status FAILED with
an error recorded, and a clean parse persists status PARSED with no errors.
On the code, `process_document` overwrites the parser's outcome with status
PARSED unconditionally (documents.py line 227), and the parser's own
catch-all (document_parser.py lines 45-48) prevents any exception from
reaching the background task's FAILED branch: so a document whose
format-specific parse fails internally is persisted with status PARSED and a
non-empty `processing_errors`, contradicting the claim's failure branch.
The success branch holds as claimed. -/
theorem c1_process_document_status (d : Document) (msg : String)
    (f : ParsedFields) :
    ((processDocument (.err msg) d).status = .parsed ∧
     (processDocument (.err msg) d).processing_errors =
       d.processing_errors ++ [msg]) ∧
    (f.ocr_errors = [] → d.processing_errors = [] →
      (processDocument (.ok f) d).status = .parsed ∧
      (processDocument (.ok f) d).processing_errors = []) := by
  refine ⟨⟨rfl, rfl⟩, fun h1 h2 => ⟨rfl, ?_⟩⟩
  simp [processDocument, parseDocument, h1, h2]

/-- C1 witness: the failing input evaluated — a text document whose file
read raises is persisted PARSED with the error recorded. -/
theorem c1_process_document_status_witness :
    ((processDocument (.err "文本解析失败: 编码错误") docA).status = .parsed ∧
     (processDocument (.err "文本解析失败: 编码错误") docA).processing_errors =
       docA.processing_errors ++ ["文本解析失败: 编码错误"]) ∧
    ((processDocument (.ok fieldsA) docA).status = .parsed ∧
     (processDocument (.ok fieldsA) docA).processing_errors = []) := by
  have h := c1_process_document_status docA "文本解析失败: 编码错误" fieldsA
  exact ⟨h.1, h.2 rfl rfl⟩

/-! ## C2 — upload validation -/

theorem uploadLoop_persisted_supported (idOf : Nat → String) (now : String) :
    ∀ (fs : List UploadFile) (i : Nat) (persisted : List Document)
      (infos : List UploadedInfo),
      (∀ d ∈ persisted, isSupportedFileType d.filename = true) →
      ∀ d ∈ (uploadLoop idOf now i persisted infos fs).1,
        isSupportedFileType d.filename = true := by
  intro fs
  induction fs with
  | nil => intro i p infos hp d hd; exact hp d hd
  | cons f fs ih =>
    intro i p infos hp d hd
    unfold uploadLoop at hd
    by_cases hf : isSupportedFileType f.filename
    · rw [if_pos hf] at hd
      refine ih _ _ _ ?_ d hd
      intro d' hd'
      rcases List.mem_append.mp hd' with h | h
      · exact hp d' h
      · simp only [List.mem_singleton] at h
        subst h
        simpa using hf
    · rw [if_neg hf] at hd
      exact hp d hd

theorem uploadLoop_unsupported_err (idOf : Nat → String) (now : String) :
    ∀ (fs : List UploadFile) (i : Nat) (persisted : List Document)
      (infos : List UploadedInfo),
      (∃ f ∈ fs, isSupportedFileType f.filename = false) →
      errStatus (uploadLoop idOf now i persisted infos fs).2 = some 400 := by
  intro fs
  induction fs with
  | nil =>
    rintro i p infos ⟨f, hf, _⟩
    cases hf
  | cons g fs ih =>
    rintro i p infos ⟨f, hf, hbad⟩
    unfold uploadLoop
    by_cases hg : isSupportedFileType g.filename
    · rw [if_pos hg]
      apply ih
      rcases List.mem_cons.mp hf with rfl | h
      · rw [hg] at hbad; cases hbad
      · exact ⟨f, h, hbad⟩
    · rw [if_neg hg]
      rfl

/-- C2: an over-large batch is rejected with a 400 before any file is
persisted; every persisted record has a supported extension (so no record
is ever created for an unsupported file); and the presence of any
unsupported file makes the call fail with a 400. -/
theorem c2_upload_validation (maxBatch : Nat) (idOf : Nat → String)
    (now : String) (files : List UploadFile) :
    (maxBatch < files.length →
      uploadDocuments maxBatch idOf now files =
        ([], .error ⟨400, "批量上传文件数量不能超过 " ++ toString maxBatch ++ " 个"⟩)) ∧
    (∀ d ∈ (uploadDocuments maxBatch idOf now files).1,
      isSupportedFileType d.filename = true) ∧
    ((∃ f ∈ files, isSupportedFileType f.filename = false) →
      errStatus (uploadDocuments maxBatch idOf now files).2 = some 400) := by
  unfold uploadDocuments
  by_cases hb : maxBatch < files.length
  · rw [if_pos hb]
    exact ⟨fun _ => rfl, by simp, fun _ => rfl⟩
  · rw [if_neg hb]
    refine ⟨fun h => absurd h hb, ?_, ?_⟩
    · exact uploadLoop_persisted_supported idOf now files 0 [] [] (by simp)
    · exact uploadLoop_unsupported_err idOf now files 0 [] []

/-- C2 witness: a batch with one `.exe` file is rejected with a 400, and a
2-file batch against `max_batch_size = 1` is rejected with no record
persisted. -/
theorem c2_upload_validation_witness :
    errStatus (uploadDocuments 100 (fun _ => "u0") "t0"
      [⟨"论文.PDF", some 10⟩, ⟨"恶意.exe", none⟩]).2 = some 400 ∧
    uploadDocuments 1 (fun _ => "u0") "t0"
      [⟨"论文.PDF", some 10⟩, ⟨"恶意.exe", none⟩] =
      ([], .error ⟨400, "批量上传文件数量不能超过 1 个"⟩) := by
  have h := c2_upload_validation 100 (fun _ => "u0") "t0"
    [⟨"论文.PDF", some 10⟩, ⟨"恶意.exe", none⟩]
  have h1 := c2_upload_validation 1 (fun _ => "u0") "t0"
    [⟨"论文.PDF", some 10⟩, ⟨"恶意.exe", none⟩]
  refine ⟨h.2.2 ⟨⟨"恶意.exe", none⟩, by decide, by decide⟩, h1.1 (by decide)⟩

/-! ## C3 — conversation title derivation and entry count -/

theorem addEntry_entries (n : String) (c : Conversation) (e : ConversationEntry) :
    (addEntry n c e).entries = c.entries ++ [e] := by
  simp only [addEntry]
  split <;> rfl

theorem addEntry_total (n : String) (c : Conversation) (e : ConversationEntry) :
    (addEntry n c e).total_questions = c.total_questions + 1 := by
  simp only [addEntry]
  split <;> rfl

theorem addEntry_title_first (n : String) (c : Conversation)
    (e : ConversationEntry) (h : c.total_questions = 0) :
    (addEntry n c e).title = generateTitle e.question := by
  simp only [addEntry]
  rw [if_pos (by simpa using h)]

theorem addEntry_title_keep (n : String) (c : Conversation)
    (e : ConversationEntry) (h : c.total_questions ≠ 0) :
    (addEntry n c e).title = c.title := by
  simp only [addEntry]
  rw [if_neg (by simpa using h)]

theorem addEntries_total :
    ∀ (l : List (String × ConversationEntry)) (c : Conversation),
      c.total_questions = c.entries.length →
      (addEntries c l).total_questions = (addEntries c l).entries.length := by
  intro l
  induction l with
  | nil => intro c h; simpa [addEntries] using h
  | cons p l ih =>
    intro c h
    show (addEntries (addEntry p.1 c p.2) l).total_questions = _
    apply ih
    rw [addEntry_total, addEntry_entries]
    simp [h]

theorem addEntries_title_keep :
    ∀ (l : List (String × ConversationEntry)) (c : Conversation),
      c.total_questions ≠ 0 → (addEntries c l).title = c.title := by
  intro l
  induction l with
  | nil => intro c _; rfl
  | cons p l ih =>
    intro c h
    show (addEntries (addEntry p.1 c p.2) l).title = _
    rw [ih _ (by rw [addEntry_total]; omega)]
    exact addEntry_title_keep p.1 c p.2 h

/-- C3: starting from a fresh conversation (no entries, zero counter), after
every sequence of appends the counter equals the number of entries; the
title is derived from the first appended entry's question and never changes
afterwards; a question longer than 50 characters yields its first 50
characters plus `"..."`, a question of at most 50 characters is taken
verbatim. -/
theorem c3_conversation_title (c : Conversation) (h1 : c.entries = [])
    (h2 : c.total_questions = 0) :
    (∀ l : List (String × ConversationEntry),
      (addEntries c l).total_questions = (addEntries c l).entries.length) ∧
    (∀ (n : String) (e : ConversationEntry)
        (l : List (String × ConversationEntry)),
      (addEntries c ((n, e) :: l)).title = generateTitle e.question) ∧
    (∀ q : String, 50 < pyLen q → generateTitle q = pyTake q 50 ++ "...") ∧
    (∀ q : String, pyLen q ≤ 50 → generateTitle q = q) := by
  refine ⟨?_, ?_, ?_, ?_⟩
  · intro l
    exact addEntries_total l c (by rw [h1, h2]; rfl)
  · intro n e l
    show (addEntries (addEntry n c e) l).title = _
    rw [addEntries_title_keep l _ (by rw [addEntry_total]; omega)]
    exact addEntry_title_first n c e h2
  · intro q hq
    unfold generateTitle
    rw [if_pos hq]
  · intro q hq
    unfold generateTitle
    rw [if_neg (by omega), pyTake_of_le hq]

/-- C3 witness: two appends on a fresh conversation — counter 2, title the
truncated 60-character first question; a short question titles verbatim. -/
theorem c3_conversation_title_witness :
    (addEntries convA [("t1", entryA), ("t2", entryB)]).total_questions =
      (addEntries convA [("t1", entryA), ("t2", entryB)]).entries.length ∧
    (addEntries convA [("t1", entryA), ("t2", entryB)]).title =
      generateTitle q60 ∧
    50 < pyLen q60 ∧
    generateTitle q60 = pyTake q60 50 ++ "..." ∧
    (addEntries convA [("t1", entryA), ("t2", entryB)]).entries.length = 2 ∧
    pyLen "短问题" ≤ 50 ∧
    generateTitle "短问题" = "短问题" := by
  have h := c3_conversation_title convA rfl rfl
  refine ⟨h.1 _, ?_, by decide, h.2.2.1 q60 (by decide), by decide, by decide,
    h.2.2.2 "短问题" (by decide)⟩
  have := h.2.1 "t1" entryA [("t2", entryB)]
  simpa [entryA] using this

/-! ## C4 — QA confidence -/

/-- C4: the confidence never exceeds 1; with at least one retrieved chunk it
equals `min(#chunks/3, 1)`, halved when the answer contains an uncertainty
phrase; and with zero retrieved chunks `answer_question` returns confidence
0 with an empty sources list. -/
theorem c4_qa_confidence (answer : String) (relevant : List Candidate) :
    calculateConfidence answer relevant ≤ 1 ∧
    (relevant ≠ [] → pyContainsAny answer lowConfidenceWords = false →
      calculateConfidence answer relevant = min ((relevant.length : ℚ) / 3) 1) ∧
    (relevant ≠ [] → pyContainsAny answer lowConfidenceWords = true →
      calculateConfidence answer relevant =
        min ((relevant.length : ℚ) / 3) 1 / 2) ∧
    (∀ (fr : String → String → ℚ) (llm : List ChatMessage → String)
        (apiKey : String) (elapsed : ℚ) (doc : Document) (question : String)
        (history : List HistoryItem),
      retrieveRelevantSections fr doc question = [] →
      (answerQuestion fr llm apiKey elapsed doc question history).confidence
          = 0 ∧
      (answerQuestion fr llm apiKey elapsed doc question history).sources
          = []) := by
  have hb0 : (0 : ℚ) ≤ min ((relevant.length : ℚ) / 3) 1 := by
    apply le_min <;> positivity
  have hb1 : min ((relevant.length : ℚ) / 3) 1 ≤ 1 := min_le_right _ _
  refine ⟨?_, ?_, ?_, ?_⟩
  · unfold calculateConfidence
    split
    · norm_num
    · split <;> exact min_le_right _ _
  · intro h1 h2
    simp only [calculateConfidence, if_neg h1, h2, Bool.false_eq_true,
      if_false]
    exact min_eq_left hb1
  · intro h1 h2
    simp only [calculateConfidence, if_neg h1, h2, if_true]
    rw [min_eq_left (by linarith)]
    ring
  · intro fr llm apiKey elapsed doc question history h
    constructor
    · show calculateConfidence _ (retrieveRelevantSections fr doc question) = 0
      rw [h]
      rfl
    · show buildAnswerSources (retrieveRelevantSections fr doc question) = []
      rw [h]
      rfl

/-- C4 witness: two retrieved chunks give confidence 2/3, halved to 1/3 by
an uncertain answer; a document with no sections retrieves nothing and
`answer_question` returns confidence 0 with no sources. -/
theorem c4_qa_confidence_witness :
    calculateConfidence "有明确答案"
      [⟨⟨"s1", "标题", "内容", 1, none, none⟩, 10, "片段一"⟩,
       ⟨⟨"s2", "标题", "内容", 1, none, none⟩, 20, "片段二"⟩] = 2/3 ∧
    calculateConfidence "文中未找到相关信息"
      [⟨⟨"s1", "标题", "内容", 1, none, none⟩, 10, "片段一"⟩,
       ⟨⟨"s2", "标题", "内容", 1, none, none⟩, 20, "片段二"⟩] = 1/3 ∧
    (answerQuestion (fun _ _ => 0) (fun _ => "回答") "" 0 docEmpty "问题" []).confidence = 0 ∧
    (answerQuestion (fun _ _ => 0) (fun _ => "回答") "" 0 docEmpty "问题" []).sources = [] := by
  have ha := c4_qa_confidence "有明确答案"
    [⟨⟨"s1", "标题", "内容", 1, none, none⟩, 10, "片段一"⟩,
     ⟨⟨"s2", "标题", "内容", 1, none, none⟩, 20, "片段二"⟩]
  have hu := c4_qa_confidence "文中未找到相关信息"
    [⟨⟨"s1", "标题", "内容", 1, none, none⟩, 10, "片段一"⟩,
     ⟨⟨"s2", "标题", "内容", 1, none, none⟩, 20, "片段二"⟩]
  have hq := (c4_qa_confidence "x" []).2.2.2 (fun _ _ => 0) (fun _ => "回答")
    "" 0 docEmpty "问题" [] (by decide)
  refine ⟨?_, ?_, hq.1, hq.2⟩
  · rw [ha.2.1 (by decide) (by decide)]
    norm_num
  · rw [hu.2.2.1 (by decide) (by decide)]
    norm_num

/-! ## C5 — AI search blended ranking -/

theorem insertDesc_perm (key : α → ℚ) (x : α) (l : List α) :
    (insertDesc key x l).Perm (x :: l) := by
  induction l with
  | nil => rfl
  | cons y ys ih =>
    unfold insertDesc
    split
    · exact List.Perm.refl _
    · exact (List.Perm.cons y ih).trans (List.Perm.swap x y ys)

theorem sortDescBy_perm (key : α → ℚ) (l : List α) :
    (sortDescBy key l).Perm l := by
  induction l with
  | nil => rfl
  | cons x xs ih =>
    exact (insertDesc_perm key x (sortDescBy key xs)).trans (List.Perm.cons x ih)

theorem mem_sortDescBy {key : α → ℚ} {l : List α} {a : α} :
    a ∈ sortDescBy key l ↔ a ∈ l :=
  (sortDescBy_perm key l).mem_iff

theorem insertDesc_pairwise {key : α → ℚ} {x : α} {l : List α}
    (h : l.Pairwise (fun a b => key b ≤ key a)) :
    (insertDesc key x l).Pairwise (fun a b => key b ≤ key a) := by
  induction l with
  | nil => simp [insertDesc]
  | cons y ys ih =>
    unfold insertDesc
    split
    · rename_i hyx
      rw [List.pairwise_cons]
      refine ⟨?_, h⟩
      intro b hb
      rcases List.mem_cons.mp hb with rfl | hb
      · exact hyx
      · exact le_trans (List.rel_of_pairwise_cons h hb) hyx
    · rename_i hyx
      push_neg at hyx
      rw [List.pairwise_cons]
      refine ⟨?_, ih (List.pairwise_cons.mp h).2⟩
      intro b hb
      have hb' : b ∈ x :: ys := (insertDesc_perm key x ys).subset hb
      rcases List.mem_cons.mp hb' with rfl | hb'
      · exact le_of_lt hyx
      · exact List.rel_of_pairwise_cons h hb'

theorem sortDescBy_pairwise (key : α → ℚ) (l : List α) :
    (sortDescBy key l).Pairwise (fun a b => key b ≤ key a) := by
  induction l with
  | nil => exact .nil
  | cons x xs ih => exact insertDesc_pairwise ih

theorem combine_score_eq {chunks : List Chunk} {aiScores : List ℚ}
    {topK : Nat} {r : SearchResult}
    (hr : r ∈ combineScoresAndRank chunks aiScores topK) :
    r.score = finalScore r.ai_score r.preliminary_score := by
  unfold combineScoresAndRank at hr
  have h1 := List.mem_of_mem_take hr
  rw [mem_sortDescBy] at h1
  rcases List.mem_map.mp h1 with ⟨p, _, rfl⟩
  rfl

theorem combine_sorted (chunks : List Chunk) (aiScores : List ℚ)
    (topK : Nat) :
    List.Chain' (fun a b : SearchResult => b.score ≤ a.score)
      (combineScoresAndRank chunks aiScores topK) := by
  unfold combineScoresAndRank
  exact (List.Pairwise.sublist (List.take_sublist _ _)
    (sortDescBy_pairwise _ _)).chain'

theorem combine_length (chunks : List Chunk) (aiScores : List ℚ)
    (topK : Nat) :
    (combineScoresAndRank chunks aiScores topK).length ≤ topK := by
  unfold combineScoresAndRank
  exact List.length_take_le _ _

/-- C5: every result of `enhanced_search` carries
`score = 0.7·ai_score + 0.3·(preliminary_score/100)`, the result list is
sorted by that score descending, its length is at most `top_k`, and the
claim's concrete instance 0.7·0.8 + 0.3·(50/100) = 0.71 holds of the
blending function. -/
theorem c5_search_blend (fr ai : String → String → ℚ) (doc : Document)
    (query : String) (topK : Nat) :
    (∀ r ∈ enhancedSearch fr ai doc query topK,
      r.score = r.ai_score * (7/10) + (r.preliminary_score / 100) * (3/10)) ∧
    List.Chain' (fun a b : SearchResult => b.score ≤ a.score)
      (enhancedSearch fr ai doc query topK) ∧
    (enhancedSearch fr ai doc query topK).length ≤ topK ∧
    finalScore (4/5) 50 = 71/100 := by
  have he : enhancedSearch fr ai doc query topK =
      if extractDocumentChunks doc = [] then []
      else
        combineScoresAndRank
          (preliminaryFilter fr (extractDocumentChunks doc) query)
          (aiRelevanceScoring ai query
            (preliminaryFilter fr (extractDocumentChunks doc) query)) topK := rfl
  rw [he]
  by_cases hc : extractDocumentChunks doc = []
  · rw [if_pos hc]
    exact ⟨by simp, by simp, by simp, by norm_num [finalScore]⟩
  · rw [if_neg hc]
    refine ⟨?_, combine_sorted _ _ _, combine_length _ _ _,
      by norm_num [finalScore]⟩
    intro r hr
    rw [combine_score_eq hr]
    rfl

set_option maxRecDepth 100000 in
/-- C5 witness: on a one-section document with a constant fuzzy score of 50
and a constant AI score of 0.8, the single returned chunk scores exactly
0.71 = 0.8×0.7 + (50/100)×0.3. -/
theorem c5_search_blend_witness :
    (enhancedSearch (fun _ _ => 50) (fun _ _ => 4/5) docSearch "查询" 10).length
        ≤ 10 ∧
    ((⟨"s1", "正文", chars120, finalScore (4/5) 50, 4/5, 50, 0, 120⟩ :
        SearchResult) ∈
      enhancedSearch (fun _ _ => 50) (fun _ _ => 4/5) docSearch "查询" 10) ∧
    finalScore (4/5) 50 = (4/5 : ℚ) * (7/10) + (50/100) * (3/10) ∧
    finalScore (4/5) 50 = 71/100 := by
  have h := c5_search_blend (fun _ _ => 50) (fun _ _ => 4/5) docSearch "查询" 10
  have hchunks : extractDocumentChunks docSearch =
      [⟨"s1", "正文", chars120, 0, 120, none⟩] := by decide
  have hkw : extractKeywordsSearch (pyLower "查询") = ["查询"] := by decide
  have hlowc : pyLower chars120 = chars120 := by decide
  have hlowq : pyLower "查询" = "查询" := by decide
  have hcount : pyCount chars120 "查询" = 0 := by decide
  have hmain : enhancedSearch (fun _ _ => 50) (fun _ _ => 4/5) docSearch "查询" 10
      = [⟨"s1", "正文", chars120, finalScore (4/5) 50, 4/5, 50, 0, 120⟩] := by
    show (if extractDocumentChunks docSearch = [] then []
      else
        combineScoresAndRank
          (preliminaryFilter (fun _ _ => 50) (extractDocumentChunks docSearch)
            "查询")
          (aiRelevanceScoring (fun _ _ => 4/5) "查询"
            (preliminaryFilter (fun _ _ => 50) (extractDocumentChunks docSearch)
              "查询")) 10) = _
    rw [hchunks, if_neg (by simp)]
    have hfil : preliminaryFilter (fun _ _ => 50)
        [⟨"s1", "正文", chars120, 0, 120, none⟩] "查询" =
        [⟨"s1", "正文", chars120, 0, 120, some 50⟩] := by
      unfold preliminaryFilter
      rw [hkw]
      norm_num [List.filterMap_cons, hlowc, hlowq, hcount, sortDescBy,
        insertDesc]
    rw [hfil]
    norm_num [combineScoresAndRank, aiRelevanceScoring, sortDescBy, insertDesc]
  have hmem : (⟨"s1", "正文", chars120, finalScore (4/5) 50, 4/5, 50, 0, 120⟩ :
      SearchResult) ∈
      enhancedSearch (fun _ _ => 50) (fun _ _ => 4/5) docSearch "查询" 10 := by
    rw [hmain]
    exact List.mem_singleton.mpr rfl
  refine ⟨h.2.2.1, hmem, ?_, h.2.2.2⟩
  simpa using h.1 _ hmem

/-! ## C6 — reference extraction -/

theorem refLines_map_raw (ls : List String) : ∀ n : Nat,
    ((List.enumFrom n ls).filterMap (fun p =>
      if 20 < pyLen p.2 then
        some { id := "ref_" ++ toString p.1, title := pyTake p.2 200,
               authors := [], raw_text := p.2 }
      else (none : Option Reference))).map Reference.raw_text
      = ls.filter (fun l => decide (20 < pyLen l)) := by
  induction ls with
  | nil => intro n; rfl
  | cons x xs ih =>
    intro n
    rw [List.enumFrom_cons, List.filterMap_cons]
    by_cases hx : 20 < pyLen x
    · rw [if_pos hx, List.map_cons, ih, List.filter_cons]
      simp [hx]
    · rw [if_neg hx, ih, List.filter_cons]
      simp [hx]

/-- C6: the references produced are exactly (in order) the non-empty lines
after the `Reference`/`参考文献` marker longer than 20 characters; each
carries the full line as `raw_text`, its first 200 characters as `title`,
and empty/absent structured fields. -/
theorem c6_reference_extraction (text : String) :
    ((extractReferences text).map Reference.raw_text =
      (refLinesOf text).filter (fun l => decide (20 < pyLen l))) ∧
    (∀ r ∈ extractReferences text,
      r.title = pyTake r.raw_text 200 ∧ 20 < pyLen r.raw_text ∧
      r.authors = [] ∧ r.journal = none ∧ r.year = none ∧ r.volume = none ∧
      r.issue = none ∧ r.pages = none ∧ r.doi = none ∧ r.url = none) := by
  constructor
  · exact refLines_map_raw (refLinesOf text) 0
  · intro r hr
    unfold extractReferences at hr
    rcases List.mem_filterMap.mp hr with ⟨p, _, hp⟩
    by_cases h20 : 20 < pyLen p.2
    · rw [if_pos h20] at hp
      rcases Option.some.inj hp with rfl
      exact ⟨rfl, h20, rfl, rfl, rfl, rfl, rfl, rfl, rfl, rfl⟩
    · rw [if_neg h20] at hp
      cases hp

/-- C6 witness: in a `参考文献` block with a 15-character and a 30-character
line, only the 30-character line yields a Reference, with the stated
fields. -/
theorem c6_reference_extraction_witness :
    (extractReferences refTextA).map Reference.raw_text = [line30] ∧
    pyLen line15 = 15 ∧
    pyLen line30 = 30 ∧
    (⟨"ref_1", line30, [], none, none, none, none, none, none, none,
        line30⟩ : Reference).title = pyTake line30 200 := by
  have h := c6_reference_extraction refTextA
  refine ⟨?_, by decide, by decide, ?_⟩
  · rw [h.1]
    decide
  · have hr := h.2
      ⟨"ref_1", line30, [], none, none, none, none, none, none, none, line30⟩
      (by decide)
    simpa using hr.1

/-! ## C7 — metadata title bounds -/

theorem titleScan_find (ls : List String) :
    titleScan ls = ((ls.map pyStrip).find?
      (fun l => decide (10 < pyLen l ∧ pyLen l < 200))).getD "" := by
  induction ls with
  | nil => rfl
  | cons x xs ih =>
    unfold titleScan
    rw [List.map_cons]
    by_cases hx : 10 < pyLen (pyStrip x) ∧ pyLen (pyStrip x) < 200
    · rw [if_pos hx, List.find?_cons_of_pos _ (by simpa using hx)]
      rfl
    · rw [if_neg hx, List.find?_cons_of_neg _ (by simpa using hx)]
      exact ih

/-- C7 counterexample: the spec reads "length 10–200" inclusively, but the
code requires `len(line) > 10 and len(line) < 200` (document_parser.py line
342), so a 10-character first line is rejected by the code while the claim
selects it. -/
theorem c7_counterexample :
    extractMetadataTitle "" "A123456789" = "" ∧
    extractMetadataTitleSpec "" "A123456789" = "A123456789" ∧
    pyLen "A123456789" = 10 := by decide

/-- C7 amended: with no PDF-native title, the extracted title is the first
stripped line of the first 10 lines whose length is strictly between 10 and
200 characters (empty when no such line exists); a non-empty PDF-native
title short-circuits the scan. -/
theorem c7_title_strict_bounds (text : String) :
    extractMetadataTitle "" text =
      ((((pySplitNl text).take 10).map pyStrip).find?
        (fun l => decide (10 < pyLen l ∧ pyLen l < 200))).getD "" ∧
    (∀ t : String, t ≠ "" → extractMetadataTitle t text = t) := by
  constructor
  · unfold extractMetadataTitle
    rw [if_neg (by simp)]
    exact titleScan_find _
  · intro t ht
    unfold extractMetadataTitle
    rw [if_pos ht]

/-- C7 witness: a too-short first line is skipped in favour of the first
line in bounds; a PDF-native title wins. -/
theorem c7_title_strict_bounds_witness :
    extractMetadataTitle "" "短\n这是一个长度合适的标题行示例文字" =
      "这是一个长度合适的标题行示例文字" ∧
    extractMetadataTitle "原生标题" "忽略正文" = "原生标题" := by
  have h := c7_title_strict_bounds "短\n这是一个长度合适的标题行示例文字"
  have h2 := (c7_title_strict_bounds "忽略正文").2 "原生标题" (by decide)
  refine ⟨?_, h2⟩
  rw [h.1]
  decide

/-! ## C8 — conversation export -/

theorem joinWith_empty_cons (x : String) (xs : List String) :
    joinWith "" (x :: xs) = x ++ joinWith "" xs := by
  cases xs with
  | nil => exact (String.append_empty x).symm
  | cons y ys =>
    show x ++ "" ++ joinWith "" (y :: ys) = _
    rw [String.append_empty]

theorem mdBlocks_join (fmtTime : String → String) (fmt2f : ℚ → String) :
    ∀ (es : List ConversationEntry) (i : Nat),
      mdBlocks fmtTime fmt2f i es =
        joinWith "" ((List.enumFrom i es).map
          (fun p => entryBlock fmtTime fmt2f p.1 p.2)) := by
  intro es
  induction es with
  | nil => intro i; rfl
  | cons e es ih =>
    intro i
    rw [List.enumFrom_cons, List.map_cons, joinWith_empty_cons]
    show entryBlock fmtTime fmt2f i e ++ mdBlocks fmtTime fmt2f (i + 1) es = _
    rw [ih]

/-- C8 counterexample: the claim says every `## 问题 N` block carries the
entry's confidence and processing time, but the code emits those two lines
only when the values are strictly positive (conversation_storage.py lines
211-214): a zero-confidence, zero-processing-time entry produces a block
with neither. -/
theorem c8_counterexample :
    pyContains (exportToMarkdown (fun t => t) (fun _ => "0.00") convC8).content
      "置信度" = false ∧
    pyContains (exportToMarkdown (fun t => t) (fun _ => "0.00") convC8).content
      "处理时间" = false ∧
    convC8.entries.length = 1 ∧
    pyContains (exportToMarkdown (fun t => t) (fun _ => "0.00") convC8).content
      "## 问题 1" = true := by decide

/-- C8 amended: markdown export returns filename `conversation_<id>.md` and
a content equal to the header (title, document title, creation time, total
questions) followed by one `## 问题 N` block per entry in entry order, each
carrying timestamp, question and answer, with the confidence and
processing-time lines present exactly when those values are strictly
positive; format `json` returns the full record and any other format falls
back to it. -/
theorem c8_export_formats (fmtTime : String → String) (fmt2f : ℚ → String)
    (c : Conversation) (format : String) :
    exportConversation fmtTime fmt2f c "json" = .record c ∧
    (format ≠ "json" → format ≠ "markdown" →
      exportConversation fmtTime fmt2f c format = .record c) ∧
    exportConversation fmtTime fmt2f c "markdown" =
      .markdown (exportToMarkdown fmtTime fmt2f c) ∧
    (exportToMarkdown fmtTime fmt2f c).filename =
      "conversation_" ++ c.id ++ ".md" ∧
    (exportToMarkdown fmtTime fmt2f c).content =
      mdHeader fmtTime c ++
        joinWith "" ((List.enumFrom 1 c.entries).map
          (fun p => entryBlock fmtTime fmt2f p.1 p.2)) := by
  refine ⟨rfl, ?_, rfl, rfl, ?_⟩
  · intro h1 h2
    unfold exportConversation
    rw [if_neg h1, if_neg h2]
  · show mdHeader fmtTime c ++ mdBlocks fmtTime fmt2f 1 c.entries = _
    rw [mdBlocks_join]

/-- C8 witness: json export returns the record, an unknown format falls back
to it, and the markdown filename is derived from the conversation id. -/
theorem c8_export_formats_witness :
    exportConversation (fun t => t) (fun _ => "0.00") convC8 "json" =
      .record convC8 ∧
    exportConversation (fun t => t) (fun _ => "0.00") convC8 "txt" =
      .record convC8 ∧
    (exportToMarkdown (fun t => t) (fun _ => "0.00") convC8).filename =
      "conversation_c8.md" ∧
    convC8.total_questions = convC8.entries.length := by
  have h := c8_export_formats (fun t => t) (fun _ => "0.00") convC8 "txt"
  refine ⟨h.1, h.2.1 (by decide) (by decide), ?_, by decide⟩
  rw [h.2.2.2.1]
  rfl

/-! ## C9 — section segmentation invariants -/

theorem secStep_eq (st : SecState) (rawLine : String) :
    secStep st rawLine =
      if pyStrip rawLine = "" then st
      else if isSectionHeader (pyStrip rawLine) then
        ⟨secFlush st, some (pyStrip rawLine), []⟩
      else ⟨st.sections, st.cur, st.content ++ [pyStrip rawLine]⟩ := rfl

theorem secFlush_some (secs : List Section) (t : String) (c : String)
    (cs : List String) :
    secFlush ⟨secs, some t, c :: cs⟩ =
      secs ++ [{ id := "section_" ++ toString secs.length, title := t
                 content := joinNl (c :: cs) }] := rfl

theorem secFlush_of_content_nil (st : SecState) (h : st.content = []) :
    secFlush st = st.sections := by
  rcases st with ⟨secs, cur, content⟩
  simp only at h
  subst h
  cases cur <;> rfl

theorem ids_append {secs : List Section} {s : Section}
    (h : ∀ (i : Nat) (hi : i < secs.length),
      secs[i].id = "section_" ++ toString i)
    (hs : s.id = "section_" ++ toString secs.length) :
    ∀ (i : Nat) (hi : i < (secs ++ [s]).length),
      (secs ++ [s])[i].id = "section_" ++ toString i := by
  intro i hi
  rw [List.length_append, List.length_singleton] at hi
  by_cases hlt : i < secs.length
  · rw [List.getElem_append_left hlt]
    exact h i hlt
  · have hieq : i = secs.length := by omega
    subst hieq
    rw [List.getElem_append_right (le_refl _)]
    simpa using hs

theorem secFlush_ids {st : SecState}
    (h : ∀ (i : Nat) (hi : i < st.sections.length),
      st.sections[i].id = "section_" ++ toString i) :
    ∀ (i : Nat) (hi : i < (secFlush st).length),
      (secFlush st)[i].id = "section_" ++ toString i := by
  rcases st with ⟨secs, cur, content⟩
  cases cur with
  | none => exact h
  | some t =>
    cases content with
    | nil => exact h
    | cons c cs => exact ids_append h rfl

theorem secStep_ids {st : SecState} (line : String)
    (h : ∀ (i : Nat) (hi : i < st.sections.length),
      st.sections[i].id = "section_" ++ toString i) :
    ∀ (i : Nat) (hi : i < (secStep st line).sections.length),
      (secStep st line).sections[i].id = "section_" ++ toString i := by
  rw [secStep_eq]
  by_cases h1 : pyStrip line = ""
  · rw [if_pos h1]; exact h
  · rw [if_neg h1]
    by_cases h2 : isSectionHeader (pyStrip line)
    · rw [if_pos h2]; exact secFlush_ids h
    · rw [if_neg h2]; exact h

theorem foldl_secStep_ids (ls : List String) : ∀ (st : SecState),
    (∀ (i : Nat) (hi : i < st.sections.length),
      st.sections[i].id = "section_" ++ toString i) →
    ∀ (i : Nat) (hi : i < (secFlush (ls.foldl secStep st)).length),
      (secFlush (ls.foldl secStep st))[i].id = "section_" ++ toString i := by
  induction ls with
  | nil => intro st h; exact secFlush_ids h
  | cons l ls ih => intro st h; exact ih (secStep st l) (secStep_ids l h)

theorem secFlush_content {st : SecState}
    (hsec : ∀ s ∈ st.sections, s.content ≠ "")
    (hcont : ∀ x ∈ st.content, x ≠ "") :
    ∀ s ∈ secFlush st, s.content ≠ "" := by
  rcases st with ⟨secs, cur, content⟩
  cases cur with
  | none => exact hsec
  | some t =>
    cases content with
    | nil => exact hsec
    | cons c cs =>
      intro s hs
      rw [secFlush_some] at hs
      rcases List.mem_append.mp hs with h | h
      · exact hsec s h
      · rcases List.mem_singleton.mp h with rfl
        exact joinNl_ne_empty cs (hcont c (List.mem_cons_self _ _))

theorem secStep_content {st : SecState} (line : String)
    (hsec : ∀ s ∈ st.sections, s.content ≠ "")
    (hcont : ∀ x ∈ st.content, x ≠ "") :
    (∀ s ∈ (secStep st line).sections, s.content ≠ "") ∧
    (∀ x ∈ (secStep st line).content, x ≠ "") := by
  rw [secStep_eq]
  by_cases h1 : pyStrip line = ""
  · rw [if_pos h1]; exact ⟨hsec, hcont⟩
  · rw [if_neg h1]
    by_cases h2 : isSectionHeader (pyStrip line)
    · rw [if_pos h2]
      exact ⟨secFlush_content hsec hcont, by simp⟩
    · rw [if_neg h2]
      refine ⟨hsec, ?_⟩
      intro x hx
      rcases List.mem_append.mp hx with h | h
      · exact hcont x h
      · rcases List.mem_singleton.mp h with rfl
        exact h1

theorem foldl_secStep_content (ls : List String) : ∀ (st : SecState),
    (∀ s ∈ st.sections, s.content ≠ "") → (∀ x ∈ st.content, x ≠ "") →
    ∀ s ∈ secFlush (ls.foldl secStep st), s.content ≠ "" := by
  induction ls with
  | nil => intro st h1 h2; exact secFlush_content h1 h2
  | cons l ls ih =>
    intro st h1 h2
    exact ih _ (secStep_content l h1 h2).1 (secStep_content l h1 h2).2

theorem foldl_none_content_irrel (ls : List String) :
    ∀ (secs : List Section) (c c' : List String),
      secFlush (ls.foldl secStep ⟨secs, none, c⟩) =
      secFlush (ls.foldl secStep ⟨secs, none, c'⟩) := by
  induction ls with
  | nil => intro secs c c'; rfl
  | cons l ls ih =>
    intro secs c c'
    show secFlush (List.foldl secStep (secStep ⟨secs, none, c⟩ l) ls) =
      secFlush (List.foldl secStep (secStep ⟨secs, none, c'⟩ l) ls)
    rw [secStep_eq, secStep_eq]
    by_cases h1 : pyStrip l = ""
    · rw [if_pos h1, if_pos h1]
      exact ih secs c c'
    · rw [if_neg h1, if_neg h1]
      by_cases h2 : isSectionHeader (pyStrip l)
      · rw [if_pos h2, if_pos h2]
        rfl
      · rw [if_neg h2, if_neg h2]
        exact ih secs (c ++ [pyStrip l]) (c' ++ [pyStrip l])

theorem foldl_pre_discard (pre : List String) : ∀ (c0 : List String),
    (∀ l ∈ pre, pyStrip l ≠ "" → isSectionHeader (pyStrip l) = false) →
    ∃ c', pre.foldl secStep ⟨[], none, c0⟩ = ⟨[], none, c'⟩ := by
  induction pre with
  | nil => intro c0 _; exact ⟨c0, rfl⟩
  | cons l pre ih =>
    intro c0 h
    show ∃ c', pre.foldl secStep (secStep ⟨[], none, c0⟩ l) = _
    rw [secStep_eq]
    by_cases h1 : pyStrip l = ""
    · rw [if_pos h1]
      exact ih c0 (fun x hx => h x (List.mem_cons_of_mem _ hx))
    · rw [if_neg h1]
      have h2 : isSectionHeader (pyStrip l) = false :=
        h l (List.mem_cons_self _ _) h1
      rw [if_neg (by simp [h2])]
      exact ih (c0 ++ [pyStrip l]) (fun x hx => h x (List.mem_cons_of_mem _ hx))

theorem foldl_headers_nil (ls : List String) : ∀ (cur : Option String),
    (∀ l ∈ ls, pyStrip l = "" ∨ isSectionHeader (pyStrip l) = true) →
    secFlush (ls.foldl secStep ⟨[], cur, []⟩) = [] := by
  induction ls with
  | nil => intro cur _; cases cur <;> rfl
  | cons l ls ih =>
    intro cur h
    show secFlush (List.foldl secStep (secStep ⟨[], cur, []⟩ l) ls) = []
    rw [secStep_eq]
    by_cases h1 : pyStrip l = ""
    · rw [if_pos h1]
      exact ih cur (fun x hx => h x (List.mem_cons_of_mem _ hx))
    · have h2 : isSectionHeader (pyStrip l) = true := by
        rcases h l (List.mem_cons_self _ _) with hh | hh
        · exact absurd hh h1
        · exact hh
      rw [if_neg h1, if_pos (by simp [h2])]
      have hfl : secFlush ⟨[], cur, []⟩ = [] := by cases cur <;> rfl
      rw [hfl]
      exact ih _ (fun x hx => h x (List.mem_cons_of_mem _ hx))

/-- C9: section ids are `section_0, section_1, ...` in source order; every
section's content is non-empty; non-header lines before the first header are
discarded (removing them does not change the result); an input of only
header/blank lines yields no sections at all; and flushing with no
accumulated content (a header immediately followed by another header or by
the end of input) appends nothing. -/
theorem c9_section_extraction (text : String) :
    (∀ (i : Nat) (hi : i < (extractSections text).length),
      (extractSections text)[i].id = "section_" ++ toString i) ∧
    (∀ s ∈ extractSections text, s.content ≠ "") ∧
    (∀ pre rest : List String,
      (∀ l ∈ pre, pyStrip l ≠ "" → isSectionHeader (pyStrip l) = false) →
      extractSectionsLines (pre ++ rest) = extractSectionsLines rest) ∧
    (∀ ls : List String,
      (∀ l ∈ ls, pyStrip l = "" ∨ isSectionHeader (pyStrip l) = true) →
      extractSectionsLines ls = []) ∧
    (∀ st : SecState, st.content = [] → secFlush st = st.sections) := by
  refine ⟨?_, ?_, ?_, ?_, secFlush_of_content_nil⟩
  · exact foldl_secStep_ids (pySplitNl text) ⟨[], none, []⟩
      (fun i hi => absurd hi (by simp))
  · exact foldl_secStep_content (pySplitNl text) ⟨[], none, []⟩
      (by simp) (by simp)
  · intro pre rest hpre
    show secFlush ((pre ++ rest).foldl secStep ⟨[], none, []⟩) = _
    rw [List.foldl_append]
    obtain ⟨c', hc⟩ := foldl_pre_discard pre [] hpre
    rw [hc]
    exact foldl_none_content_irrel rest [] c' []
  · intro ls h
    exact foldl_headers_nil ls none h

/-- C9 witness: on a text with a preamble line, an Abstract section, an
Introduction header with no content and a trailing Method section, the
result is exactly the two content-bearing sections with sequential ids. -/
theorem c9_section_extraction_witness :
    extractSections textC9 =
      [{ id := "section_0", title := "Abstract", content := "这是摘要内容。" },
       { id := "section_1", title := "Method", content := "方法正文内容。" }] ∧
    ("这是摘要内容。" : String) ≠ "" ∧
    extractSectionsLines (["噪声前置行"] ++ ["Abstract", "内容正文"]) =
      extractSectionsLines ["Abstract", "内容正文"] ∧
    extractSectionsLines ["Abstract", "Method"] = [] ∧
    secFlush ⟨[], some "Abstract", []⟩ = [] := by
  have h := c9_section_extraction textC9
  refine ⟨by decide, ?_, ?_, ?_, ?_⟩
  · exact h.2.1 ⟨"section_0", "Abstract", "这是摘要内容。", 1, none, none⟩
      (by decide)
  · exact h.2.2.1 ["噪声前置行"] ["Abstract", "内容正文"] (by decide)
  · exact h.2.2.2.1 ["Abstract", "Method"] (by decide)
  · exact h.2.2.2.2 ⟨[], some "Abstract", []⟩ rfl

/-! ## C10 — `/qa/ask` never checks conversation ownership -/

theorem addEntry_id (n : String) (c : Conversation) (e : ConversationEntry) :
    (addEntry n c e).id = c.id := by
  simp only [addEntry]
  split <;> rfl

/-- C10: when the request carries a `conversation_id` that resolves, the
handler performs no check that the conversation's `document_id` matches the
request's `document_id`: even for a conversation belonging to a different
document the call succeeds, the answer is computed by the QA service against
the requested document using that conversation's history, and the new turn
is appended to that conversation. -/
theorem c10_ask_cross_document (fr : String → String → ℚ)
    (llm : List ChatMessage → String) (apiKey : String) (elapsed : ℚ)
    (newConvId now : String) (legacyNow : ℚ) (st : AskState)
    (req : QuestionRequest) (cid : String) (conv : Conversation)
    (doc : Document)
    (h1 : req.conversation_id = some cid) (h2 : cid ≠ "")
    (h3 : st.conversations cid = some conv) (h4 : conv.id = cid)
    (h5 : st.documents req.document_id = some doc)
    (h6 : doc.status.value ∈ (["parsed", "extracted", "completed"] : List String))
    (_h7 : conv.document_id ≠ req.document_id) :
    askOutcomeView
      (askQuestion fr llm apiKey elapsed newConvId now legacyNow st req) cid =
      some (conv.id,
        (answerQuestion fr llm apiKey elapsed doc req.question
          (toHistoryFormat conv)).answer,
        some (conv.entries.map (fun e => (e.question, e.answer)) ++
          [(req.question,
            (answerQuestion fr llm apiKey elapsed doc req.question
              (toHistoryFormat conv)).answer)])) := by
  have hcond : ¬ ¬ doc.status.value ∈
      (["parsed", "extracted", "completed"] : List String) := not_not_intro h6
  simp only [askQuestion, h1, h5]
  rw [if_neg hcond]
  simp [h2, h3, h4, askOutcomeView, legacyAdd, legacyCleanup,
    saveConversation, addEntry_id, addEntry_entries]

/-- C10 witness: a conversation stored for document `d2` is continued against
a request for document `d1`; the call succeeds, answers from `d1`, and
appends the turn to the `d2` conversation. -/
theorem c10_ask_cross_document_witness :
    askOutcomeView
      (askQuestion (fun _ _ => 0) (fun _ => "生成的回答") "k" 0 "new1" "t2" 0
        stC10 reqC10) "c1" =
      some ("c1", "生成的回答",
        some [("旧问", "旧答"), ("新问题", "生成的回答")]) ∧
    convOther.document_id ≠ reqC10.document_id := by
  have h := c10_ask_cross_document (fun _ _ => 0) (fun _ => "生成的回答") "k" 0
    "new1" "t2" 0 stC10 reqC10 "c1" convOther docQA rfl (by decide) rfl rfl
    rfl (by decide) (by decide)
  refine ⟨?_, by decide⟩
  rw [h]
  rfl
